import Mathlib

/-!
# go-ftw: the stage execution engine

A shallow embedding of `runner/run.go` and `cmd/run.go`.

Stateful code is written in explicit state-passing style.  Every call the runner makes on
one of its collaborators (the output writer, the HTTP client, the log reader, the
statistics, the marker setters of the check object) is appended to a ghost `trace` kept in
the run context.  What a collaborator answers is given by an environment `Env` whose
oracles read the trace so far, so an answer may depend on everything that happened before
the call.  Diagnostic logging through zerolog is not part of the model.
-/

namespace GoFtw

/-! ## Data model -/

/-- A Go byte slice; a nil slice is `none` at the places where the code tests for nil -/
abbrev Bytes := List Nat

/-- A `time.Duration` or a clock reading, in nanoseconds -/
abbrev Duration := Int

/-- A Go `error` value: created by `errors.New` or `fmt.Errorf` without `%w` (`msg`), or
wrapping another error with `%w` (`wrap`).  Only the format string is kept. -/
inductive GoError where
  | msg (format : String)
  | wrap (format : String) (inner : GoError)
deriving DecidableEq, Repr

/-- A compiled `*regexp.Regexp`, kept as its `MatchString` predicate -/
structure Regexp where
  MatchString : String → Bool

/-- The verdicts of `runner.TestResult` -/
inductive TestResult where
  | Success
  | Failed
  | Skipped
  | Ignored
  | ForceFail
  | ForcePass
deriving DecidableEq, Repr

/-- The type `ftwhttp.Header`, a map from header name to value; `none` is the nil map -/
abbrev Header := Option (List (String × String))

/-- The struct `ftwhttp.Destination` of `ftwhttp/types.go` -/
structure Destination where
  DestAddr : String
  Port : Int
  Protocol : String
deriving DecidableEq, Repr

/-- The struct `ftwhttp.RequestLine` of `ftwhttp/types.go` -/
structure RequestLine where
  Method : String
  Version : String
  URI : String
deriving DecidableEq, Repr

/-- The struct `ftwhttp.Request` of `ftwhttp/types.go`; the cookie jar, nil in every request
the runner builds, is left out -/
structure Request where
  requestLine : Option RequestLine
  headers : Header
  data : Option Bytes
  raw : Option Bytes
  autoCompleteHeaders : Bool
deriving DecidableEq, Repr

/-- The struct `ftwhttp.Response` of `ftwhttp/types.go`: the raw bytes and, of the parsed
view, the status code and the body -/
structure Response where
  RAW : Bytes
  StatusCode : Int
  Body : String
deriving DecidableEq, Repr

/-- The struct `test.Input`, with the fields the runner reads or writes -/
structure Input where
  DestAddr : Option String
  Port : Option Int
  Protocol : Option String
  URI : Option String
  Version : Option String
  Method : Option String
  Headers : Header
  Data : Option String
  EncodedRequest : String
  RAWRequest : String
  StopMagic : Bool
deriving DecidableEq, Repr

/-- The struct `test.Output`, the expectation of a stage -/
structure Output where
  Status : List Int
  ResponseContains : String
  LogContains : String
  NoLogContains : String
  ExpectError : Bool
deriving DecidableEq, Repr

/-- The struct `test.Stage` -/
structure Stage where
  Input : Input
  Output : Output
deriving DecidableEq, Repr

/-- The struct `test.Test`: a test case, a titled sequence of stages -/
structure Test where
  TestTitle : String
  Stages : List Stage
deriving DecidableEq, Repr

/-- The metadata of a test file -/
structure Meta where
  Enabled : Bool
  Name : String
deriving DecidableEq, Repr

/-- The struct `test.FTWTest`: one test file -/
structure FTWTest where
  Meta : Meta
  Tests : List Test
deriving DecidableEq, Repr

/-- The input part of `config.FTWConfig.TestOverride` -/
structure InputOverride where
  Port : Option Int
  DestAddr : Option String
  Protocol : Option String
deriving DecidableEq, Repr

/-- The fields of the global `config.FTWConfig` that the runner itself reads; the tables of
forced verdicts are read by the check object only -/
structure FTWConfiguration where
  LogFile : String
  LogMarkerHeaderName : String
  RunMode : String
  TestOverrideInput : InputOverride
deriving DecidableEq, Repr

/-- One call of the runner on a collaborator -/
inductive Event where
  | println (format : String)
  | newConnection (dest : Destination)
  | newOrReusedConnection (dest : Destination)
  | startTrackingTime
  | stopTrackingTime
  | doRequest (req : Request)
  | checkLogForMarker (stageID : String) (readLimit : Int)
  | setStartMarker (marker : Option Bytes)
  | setEndMarker (marker : Option Bytes)
  | setExpectTestOutput (expected : Output)
  | addResultToStats (result : TestResult) (title : String) (testTime : Duration)
  | printSummary
  | cleanup
  | getTestsFromFiles (glob : String)
deriving DecidableEq, Repr

/-- The history of calls made so far -/
abbrev Trace := List Event

/-- Modelled from the spec: `runner.RunStats` is declared outside the files at hand; the
spec gives it as counters per verdict plus the cumulative elapsed time, and `RunStage`
shows the fields `Run` and `TotalTime`. -/
structure RunStats where
  Run : Int
  TotalTime : Duration
  Success : Nat
  Failed : Nat
  Skipped : Nat
  Ignored : Nat
  ForcedPass : Nat
  ForcedFail : Nat
deriving DecidableEq, Repr

/-- The struct `runner.TestRunContext`, with the fields `Run` fills in and `Result`; the
output writer, the client and the log reader are stood for by the `trace` -/
structure TestRunContext where
  Include : Option Regexp
  Exclude : Option Regexp
  ShowTime : Bool
  ShowOnlyFailed : Bool
  MaxMarkerRetries : Int
  MaxMarkerLogLines : Int
  Stats : RunStats
  RunMode : String
  Result : TestResult
  trace : Trace

/-- The collaborators of the runner that live outside the files at hand.  `χ` is the state
of a `check.FTWCheck`. -/
structure Env (χ : Type) where
  FTWConfig : FTWConfiguration
  /-- the clock `time.Now` -/
  Now : Trace → Duration
  /-- the generator `uuid.NewString` -/
  NewString : Trace → String
  /-- the constructor `check.NewCheck` -/
  NewCheck : FTWConfiguration → χ
  ForcedIgnore : χ → String → Bool
  ForcedFail : χ → String → Bool
  ForcedPass : χ → String → Bool
  CloudMode : χ → Bool
  SetCloudMode : χ → χ
  SetStartMarker : χ → Option Bytes → χ
  SetEndMarker : χ → Option Bytes → χ
  SetExpectTestOutput : χ → Output → χ
  AssertExpectError : χ → GoError → Bool
  AssertStatus : χ → Int → Bool
  AssertResponseContains : χ → String → Bool
  AssertLogContains : Trace → χ → Bool
  AssertNoLogContains : Trace → χ → Bool
  /-- the method `Client.NewConnection`: the error it returns, if any -/
  NewConnection : Trace → Destination → Option GoError
  /-- the method `Client.NewOrReusedConnection` -/
  NewOrReusedConnection : Trace → Destination → Option GoError
  /-- the method `Client.Do`: the response pointer and the error -/
  Do : Trace → Request → Option Response × Option GoError
  /-- the call `Client.GetRoundTripTime().RoundTripDuration()` -/
  RoundTripDuration : Trace → Duration
  /-- the method `FTWLogLines.CheckLogForMarker`; `none` is the nil slice -/
  CheckLogForMarker : Trace → String → Int → Option Bytes
  /-- the method `Input.GetRawRequest`: the bytes and the error -/
  GetRawRequest : Input → Option Bytes × Option GoError
  /-- the method `Input.ParseData` -/
  ParseData : Input → Option Bytes
  /-- the constructor `waflog.NewFTWLogLines`: the error it returns, if any -/
  NewFTWLogLines : String → Option GoError
  /-- the function `test.GetTestsFromFiles`: the tests and the error -/
  GetTestsFromFiles : Trace → String → List FTWTest × Option GoError
  /-- the function `regexp.MustCompile`; `none` when it panics on a bad pattern -/
  MustCompile : String → Option Regexp
  /-- the method `RunStats.TotalFailed` -/
  TotalFailed : RunStats → Int
  /-- the constructor `ftwhttp.NewClientConfig`: the default connect and read timeouts -/
  NewClientConfig : Duration × Duration
  /-- the constructor `ftwhttp.NewClient`: the error it returns, if any -/
  NewClient : Duration → Duration → Option GoError

/-! ## `runner/run.go` -/

/-- The package variable `errBadTestRequest` -/
def errBadTestRequest : GoError :=
  .msg "ftw/run: bad test: choose between data, encoded_request, or raw_request"

/-- The function `needToSkipTest`; `incl` is its parameter `include`, a reserved word
here -/
def needToSkipTest (incl exclude : Option Regexp) (title : String) (enabled : Bool) : Bool :=
  -- skip disabled tests
  if !enabled then true
  else
    -- never skip enabled explicit inclusions
    let included : Bool :=
      match incl with
      | some re => re.MatchString title
      | none => false
    if included then false
    else
      let result := false
      let result :=
        match exclude with
        | some re => if re.MatchString title then true else result
        | none => result
      let result :=
        match incl with
        | some re => if !re.MatchString title then true else result
        | none => result
      result

/-- Modelled from the spec: `utils.IsNotEmpty` is outside the files at hand; the spec speaks
of a field that is non-empty, which for the optional `Data` is a present, non-empty string. -/
def IsNotEmpty (data : Option String) : Bool :=
  match data with
  | some s => s != ""
  | none => false

/-- The function `checkTestSanity` -/
def checkTestSanity (testRequest : Input) : Bool :=
  (IsNotEmpty testRequest.Data && testRequest.EncodedRequest != "") ||
    (IsNotEmpty testRequest.Data && testRequest.RAWRequest != "") ||
    (testRequest.EncodedRequest != "" && testRequest.RAWRequest != "")

/-- Append one call to the history -/
def TestRunContext.log (rc : TestRunContext) (e : Event) : TestRunContext :=
  { rc with trace := rc.trace ++ [e] }

/-- Modelled from the spec: `RunStats.addResultToStats` is outside the files at hand; the
statistics hold one counter per verdict and the call adds one to the counter of `result`. -/
def RunStats.addResultToStats (stats : RunStats) (result : TestResult) : RunStats :=
  match result with
  | .Success => { stats with Success := stats.Success + 1 }
  | .Failed => { stats with Failed := stats.Failed + 1 }
  | .Skipped => { stats with Skipped := stats.Skipped + 1 }
  | .Ignored => { stats with Ignored := stats.Ignored + 1 }
  | .ForceFail => { stats with ForcedFail := stats.ForcedFail + 1 }
  | .ForcePass => { stats with ForcedPass := stats.ForcedPass + 1 }

/-- The call `runContext.Stats.addResultToStats(result, title, testTime)`, with its entry
in the history -/
def TestRunContext.addResultToStats (rc : TestRunContext) (result : TestResult)
    (title : String) (testTime : Duration) : TestRunContext :=
  { rc with
    Stats := rc.Stats.addResultToStats result
    trace := rc.trace ++ [.addResultToStats result title testTime] }

/-- The function `displayResult`; the durations are format arguments only -/
def displayResult (rc : TestRunContext) (result : TestResult)
    (_roundTripTime _stageTime : Duration) : TestRunContext :=
  match result with
  | .Success =>
    if !rc.ShowOnlyFailed then rc.log (.println "+ passed in %s (RTT %s)") else rc
  | .Failed => rc.log (.println "- failed in %s (RTT %s)")
  | .Ignored =>
    if !rc.ShowOnlyFailed then rc.log (.println ":information:test ignored") else rc
  | .ForceFail => rc.log (.println ":information:test forced to fail")
  | .ForcePass =>
    if !rc.ShowOnlyFailed then rc.log (.println ":information:test forced to pass") else rc
  | _ => rc

/-- The function `overriddenTestResult` -/
def overriddenTestResult {χ : Type} (env : Env χ) (c : χ) (id : String) : TestResult :=
  if env.ForcedIgnore c id then .Ignored
  else if env.ForcedFail c id then .ForceFail
  else if env.ForcedPass c id then .ForcePass
  else .Failed

/-- The function `checkResult`.  `tr` is the history at the time of the call, which the
log assertions may read; `SetCloudMode` changes the check object the assertions are then
asked on. -/
def checkResult {χ : Type} (env : Env χ) (tr : Trace) (c : χ) (response : Option Response)
    (responseError : Option GoError) : TestResult :=
  -- Request might return an error, but it could be expected, we check that first
  let expected : Bool :=
    match responseError with
    | some e => env.AssertExpectError c e
    | none => false
  if expected then .Success
  -- If there was no error, perform the remaining checks
  else if responseError.isSome then .Failed
  else
    let c := if env.CloudMode c then env.SetCloudMode c else c
    -- Lastly, check logs
    let viaLogs : TestResult :=
      if env.AssertLogContains tr c then .Success
      else if env.AssertNoLogContains tr c then .Success
      else .Failed
    -- If we didn't expect an error, check the actual response from the waf
    match response with
    | some r =>
      if env.AssertStatus c r.StatusCode then .Success
      else if env.AssertResponseContains c r.Body then .Success
      else viaLogs
    | none => viaLogs

/-- Modelled from the spec: the getters of `test.Input` are outside the files at hand; an
unset address is `localhost`, as the default tag of `Destination.DestAddr` says. -/
def Input.GetDestAddr (i : Input) : String := i.DestAddr.getD "localhost"

/-- Modelled from the spec: an unset port is 80, the default tag of `Destination.Port`. -/
def Input.GetPort (i : Input) : Int := i.Port.getD 80

/-- Modelled from the spec: an unset protocol is `http`, the default tag of
`Destination.Protocol`. -/
def Input.GetProtocol (i : Input) : String := i.Protocol.getD "http"

/-- Modelled from the spec: an unset method is GET. -/
def Input.GetMethod (i : Input) : String := i.Method.getD "GET"

/-- Modelled from the spec: an unset URI is the root path. -/
def Input.GetURI (i : Input) : String := i.URI.getD "/"

/-- Modelled from the spec: an unset version is HTTP/1.1. -/
def Input.GetVersion (i : Input) : String := i.Version.getD "HTTP/1.1"

/-- Modelled from the spec: `ftwhttp.NewRequest` is outside the files at hand; it fills the
fields of `Request` from its arguments. -/
def NewRequest (reqLine : Option RequestLine) (h : Header) (data : Option Bytes)
    (autocompleteHeaders : Bool) : Request :=
  { requestLine := reqLine, headers := h, data := data, raw := none,
    autoCompleteHeaders := autocompleteHeaders }

/-- Modelled from the spec: `ftwhttp.NewRawRequest` is outside the files at hand; a raw
request carries its bytes and nothing else. -/
def NewRawRequest (raw : Bytes) (autocompleteHeaders : Bool) : Request :=
  { requestLine := none, headers := none, data := none, raw := some raw,
    autoCompleteHeaders := autocompleteHeaders }

/-- The function `getRequestFromTest` -/
def getRequestFromTest {χ : Type} (env : Env χ) (testRequest : Input) : Request :=
  -- get raw request, if anything
  match (env.GetRawRequest testRequest).1 with
  -- If we use raw or encoded request, then we don't use other fields
  | some raw => NewRawRequest raw (!testRequest.StopMagic)
  | none =>
    let rline : RequestLine :=
      { Method := testRequest.GetMethod
        URI := testRequest.GetURI
        Version := testRequest.GetVersion }
    let data := env.ParseData testRequest
    -- create a new request
    NewRequest (some rline) testRequest.Headers data (!testRequest.StopMagic)

/-- A header name in lower case, letter by letter, for the comparison without case -/
def canonicalKey (key : String) : String := String.mk (key.data.map Char.toLower)

/-- Modelled from the spec: `Header.Get` is outside the files at hand; the spec asks for a
case-insensitive lookup, and an absent header reads as the empty string. -/
def Header.Get (h : Header) (key : String) : String :=
  match h with
  | none => ""
  | some kvs =>
    match kvs.find? (fun kv => canonicalKey kv.1 == canonicalKey key) with
    | some kv => kv.2
    | none => ""

/-- Modelled from the spec: `Header.Set` is outside the files at hand; the entry of the
same name, compared without case, is replaced, insertion order kept otherwise. -/
def Header.Set (h : Header) (key value : String) : Header :=
  some ((h.getD []).filter (fun kv => canonicalKey kv.1 != canonicalKey key) ++ [(key, value)])

/-- The function `applyInputOverride`, on a copy of the input; the error is always nil -/
def applyInputOverride (cfg : FTWConfiguration) (testRequest : Input) :
    Input × Option GoError :=
  let overrides := cfg.TestOverrideInput
  let testRequest : Input :=
    match overrides.Port with
    | some p => { testRequest with Port := some p }
    | none => testRequest
  let testRequest : Input :=
    match overrides.DestAddr with
    | some a =>
      let testRequest : Input := { testRequest with DestAddr := some a }
      let testRequest : Input :=
        if testRequest.Headers = none then { testRequest with Headers := some [] }
        else testRequest
      if Header.Get testRequest.Headers "Host" == "" then
        { testRequest with Headers := Header.Set testRequest.Headers "Host" a }
      else testRequest
    | none => testRequest
  let testRequest : Input :=
    match overrides.Protocol with
    | some p => { testRequest with Protocol := some p }
    | none => testRequest
  (testRequest, none)

/-- The function `notRunningInCloudMode` -/
def notRunningInCloudMode {χ : Type} (env : Env χ) (c : χ) : Bool :=
  !env.CloudMode c

/-- What `markAndFlush` hands back: the run context after its calls, the marker and the
error -/
structure MarkResult where
  ctx : TestRunContext
  marker : Option Bytes
  err : Option GoError

/-- One more entry of a Go map literal: a key that is already there, compared exactly,
keeps its place and takes the new value; a new key is added -/
def mapLiteralEntry (entries : List (String × String)) (key value : String) :
    List (String × String) :=
  if entries.any (fun kv => kv.1 == key) then
    entries.map (fun kv => if kv.1 == key then (kv.1, value) else kv)
  else entries ++ [(key, value)]

/-- The probe request `markAndFlush` builds before its loop.  The headers are a map
literal whose last key is the configured marker header name: when that name is one of the
three fixed names, the map has three entries and the stage ID is the value of that name. -/
def markerRequest (cfg : FTWConfiguration) (stageID : String) : Request :=
  let rline : RequestLine :=
    { Method := "GET"
      -- Use the /status endpoint of httpbin
      URI := "/status/200"
      Version := "HTTP/1.1" }
  let headers : Header :=
    some (mapLiteralEntry
      [("Accept", "*/*"), ("User-Agent", "go-ftw test agent"), ("Host", "localhost")]
      cfg.LogMarkerHeaderName stageID)
  NewRequest (some rline) headers none true

/-- The loop of `markAndFlush`, `for i := runContext.MaxMarkerRetries; i > 0; i--`, with
`i` the number of rounds left, and the return that follows it -/
def markAndFlushLoop {χ : Type} (env : Env χ) (dest : Destination) (stageID : String)
    (req : Request) : Nat → TestRunContext → MarkResult
  | 0, runContext =>
    { ctx := runContext, marker := none,
      err := some (.msg "can't find log marker. Am I reading the correct log? Log file: %s") }
  | i + 1, runContext =>
    let err := env.NewOrReusedConnection runContext.trace dest
    let runContext := runContext.log (.newOrReusedConnection dest)
    match err with
    | some e =>
      { ctx := runContext, marker := none,
        err := some (.wrap "ftw/run: can't connect to destination %+v: %w" e) }
    | none =>
      let err := (env.Do runContext.trace req).2
      let runContext := runContext.log (.doRequest req)
      match err with
      | some e =>
        { ctx := runContext, marker := none,
          err := some (.wrap "ftw/run: failed sending request to %+v: %w" e) }
      | none =>
        let marker :=
          env.CheckLogForMarker runContext.trace stageID runContext.MaxMarkerLogLines
        let runContext :=
          runContext.log (.checkLogForMarker stageID runContext.MaxMarkerLogLines)
        match marker with
        | some m => { ctx := runContext, marker := some m, err := none }
        | none => markAndFlushLoop env dest stageID req i runContext

/-- The function `markAndFlush`; a retry limit that is not positive gives no round -/
def markAndFlush {χ : Type} (env : Env χ) (runContext : TestRunContext)
    (dest : Destination) (stageID : String) : MarkResult :=
  let req := markerRequest env.FTWConfig stageID
  markAndFlushLoop env dest stageID req runContext.MaxMarkerRetries.toNat runContext

/-- `RunStage`, from `SetExpectTestOutput` to the end: the verdict is resolved and
recorded -/
def RunStage.finish {χ : Type} (env : Env χ) (runContext : TestRunContext) (ftwCheck : χ)
    (testCase : Test) (expectedOutput : Output) (stageStartTime : Duration)
    (response : Option Response) (responseErr : Option GoError) :
    TestRunContext × Option GoError :=
  -- Set expected test output in check
  let ftwCheck := env.SetExpectTestOutput ftwCheck expectedOutput
  let runContext := runContext.log (.setExpectTestOutput expectedOutput)
  -- now get the test result based on output
  let testResult := checkResult env runContext.trace ftwCheck response responseErr
  let roundTripTime := env.RoundTripDuration runContext.trace
  let stageTime := env.Now runContext.trace - stageStartTime
  let runContext := runContext.addResultToStats testResult testCase.TestTitle stageTime
  let runContext := { runContext with Result := testResult }
  -- show the result unless quiet was passed in the command line
  let runContext := displayResult runContext testResult roundTripTime stageTime
  let runContext :=
    { runContext with Stats := { runContext.Stats with Run := runContext.Stats.Run + 1 } }
  let runContext :=
    { runContext with
      Stats := { runContext.Stats with TotalTime := runContext.Stats.TotalTime + stageTime } }
  (runContext, none)

/-- `RunStage`, the search for the end marker after the test request -/
def RunStage.endMarker {χ : Type} (env : Env χ) (runContext : TestRunContext) (ftwCheck : χ)
    (testCase : Test) (expectedOutput : Output) (stageStartTime : Duration)
    (dest : Destination) (stageID : String)
    (response : Option Response) (responseErr : Option GoError) :
    TestRunContext × Option GoError :=
  if notRunningInCloudMode env ftwCheck then
    let r := markAndFlush env runContext dest stageID
    match r.err, expectedOutput.ExpectError with
    | some err, false => (r.ctx, some (.wrap "failed to find end marker: %w" err))
    | _, _ =>
      RunStage.finish env (r.ctx.log (.setEndMarker r.marker))
        (env.SetEndMarker ftwCheck r.marker) testCase expectedOutput stageStartTime
        response responseErr
  else
    RunStage.finish env runContext ftwCheck testCase expectedOutput stageStartTime
      response responseErr

/-- `RunStage`, the connection to the destination and the send of the test request -/
def RunStage.send {χ : Type} (env : Env χ) (runContext : TestRunContext) (ftwCheck : χ)
    (testCase : Test) (testRequest : Input) (expectedOutput : Output)
    (stageStartTime : Duration) (dest : Destination) (stageID : String) :
    TestRunContext × Option GoError :=
  let req := getRequestFromTest env testRequest
  let err := env.NewConnection runContext.trace dest
  let runContext := runContext.log (.newConnection dest)
  match err, expectedOutput.ExpectError with
  | some err, false => (runContext, some (.wrap "can't connect to destination %+v: %w" err))
  | _, _ =>
    let runContext := runContext.log .startTrackingTime
    let answer := env.Do runContext.trace req
    let response := answer.1
    let responseErr := answer.2
    let runContext := runContext.log (.doRequest req)
    let runContext := runContext.log .stopTrackingTime
    match responseErr, expectedOutput.ExpectError with
    | some err, false =>
      (runContext, some (.wrap "failed sending request to destination %+v: %w" err))
    | _, _ =>
      RunStage.endMarker env runContext ftwCheck testCase expectedOutput stageStartTime
        dest stageID response responseErr

/-- The function `RunStage`: it returns the run context after the stage and the error.
Its body continues in `RunStage.send`, `RunStage.endMarker` and `RunStage.finish`. -/
def RunStage {χ : Type} (env : Env χ) (runContext : TestRunContext) (ftwCheck : χ)
    (testCase : Test) (stage : Stage) : TestRunContext × Option GoError :=
  let stageStartTime := env.Now runContext.trace
  let stageID := env.NewString runContext.trace
  -- Apply global overrides initially
  let testRequest := (applyInputOverride env.FTWConfig stage.Input).1
  let expectedOutput := stage.Output
  -- Check sanity first
  if checkTestSanity testRequest then (runContext, some errBadTestRequest)
  else
    -- Do not even run test if result is overridden.
    let overridden := overriddenTestResult env ftwCheck testCase.TestTitle
    if overridden ≠ .Failed then
      let runContext := runContext.addResultToStats overridden testCase.TestTitle 0
      let runContext := displayResult runContext overridden 0 0
      (runContext, none)
    else
      -- Destination is needed for a request
      let dest : Destination :=
        { DestAddr := testRequest.GetDestAddr
          Port := testRequest.GetPort
          Protocol := testRequest.GetProtocol }
      if notRunningInCloudMode env ftwCheck then
        let r := markAndFlush env runContext dest stageID
        match r.err, expectedOutput.ExpectError with
        | some err, false => (r.ctx, some (.wrap "failed to find start marker: %w" err))
        | _, _ =>
          RunStage.send env (r.ctx.log (.setStartMarker r.marker))
            (env.SetStartMarker ftwCheck r.marker) testCase testRequest expectedOutput
            stageStartTime dest stageID
      else
        RunStage.send env runContext ftwCheck testCase testRequest expectedOutput
          stageStartTime dest stageID

/-- The inner loop of `RunTest` over the stages of one test case -/
def runStages {χ : Type} (env : Env χ) (testCase : Test) :
    List Stage → TestRunContext → TestRunContext × Option GoError
  | [], runContext => (runContext, none)
  | stage :: rest, runContext =>
    let ftwCheck := env.NewCheck env.FTWConfig
    match RunStage env runContext ftwCheck testCase stage with
    | (runContext, some err) => (runContext, some err)
    | (runContext, none) => runStages env testCase rest runContext

/-- `RunTest`, what is done with a test case that is skipped: the verdict Skipped is
recorded and, for a disabled file, a line is printed -/
def skipTestCase (ftwTest : FTWTest) (testCase : Test) (runContext : TestRunContext) :
    TestRunContext :=
  let runContext := runContext.addResultToStats .Skipped testCase.TestTitle 0
  if !ftwTest.Meta.Enabled && !runContext.ShowOnlyFailed then
    runContext.log (.println "\tskipping %s - (enabled: false) in file.")
  else runContext

/-- `RunTest`, the lines printed before the stages of a test case that is run; `changed` is
the local variable of that name, handed back with its new value -/
def announceTestCase (changed : Bool) (runContext : TestRunContext) : TestRunContext × Bool :=
  -- this is just for printing once the next test
  let printed := changed && !runContext.ShowOnlyFailed
  let runContext :=
    if printed then runContext.log (.println "=> executing tests in file %s")
    else runContext
  let changed := if printed then false else changed
  let runContext :=
    if !runContext.ShowOnlyFailed then runContext.log (.println "\trunning %s: ")
    else runContext
  (runContext, changed)

/-- The outer loop of `RunTest` over the test cases of a file -/
def runTestCases {χ : Type} (env : Env χ) (ftwTest : FTWTest) :
    List Test → Bool → TestRunContext → TestRunContext × Option GoError
  | [], _, runContext => (runContext, none)
  | testCase :: rest, changed, runContext =>
    -- if we received a particular testid, skip until we find it
    if needToSkipTest runContext.Include runContext.Exclude testCase.TestTitle
        ftwTest.Meta.Enabled then
      runTestCases env ftwTest rest changed (skipTestCase ftwTest testCase runContext)
    else
      let announced := announceTestCase changed runContext
      -- Iterate over stages
      match runStages env testCase testCase.Stages announced.1 with
      | (runContext, some err) => (runContext, some err)
      | (runContext, none) => runTestCases env ftwTest rest announced.2 runContext

/-- The function `RunTest` -/
def RunTest {χ : Type} (env : Env χ) (runContext : TestRunContext) (ftwTest : FTWTest) :
    TestRunContext × Option GoError :=
  runTestCases env ftwTest ftwTest.Tests true runContext

/-- The struct `runner.Config`, the second argument of `Run` -/
structure Config where
  Include : Option Regexp
  Exclude : Option Regexp
  ShowTime : Bool
  ShowOnlyFailed : Bool
  ConnectTimeout : Duration
  ReadTimeout : Duration
  MaxMarkerRetries : Int
  MaxMarkerLogLines : Int

/-- Modelled from the spec: `NewRunStats` is outside the files at hand; a new statistics
record has every counter at zero. -/
def NewRunStats : RunStats :=
  { Run := 0, TotalTime := 0, Success := 0, Failed := 0, Skipped := 0, Ignored := 0,
    ForcedPass := 0, ForcedFail := 0 }

/-- The zero value `TestRunContext{}`, which `Run` returns next to an error; it carries
the history reached, which belongs to the collaborators and not to the value -/
def emptyRunContext (trace : Trace) : TestRunContext :=
  { Include := none, Exclude := none, ShowTime := false, ShowOnlyFailed := false,
    MaxMarkerRetries := 0, MaxMarkerLogLines := 0, Stats := NewRunStats, RunMode := "",
    Result := .Success, trace := trace }

/-- The loop of `Run` over the test files -/
def runTests {χ : Type} (env : Env χ) :
    List FTWTest → TestRunContext → TestRunContext × Option GoError
  | [], runContext => (runContext, none)
  | tc :: rest, runContext =>
    match RunTest env runContext tc with
    | (runContext, some err) => (runContext, some err)
    | (runContext, none) => runTests env rest runContext

/-- The client configuration `Run` builds: the defaults, each replaced by a non-zero
timeout of the configuration -/
def Run.clientConfig {χ : Type} (env : Env χ) (c : Config) : Duration × Duration :=
  let conf := env.NewClientConfig
  let conf := if c.ConnectTimeout ≠ 0 then (c.ConnectTimeout, conf.2) else conf
  let conf := if c.ReadTimeout ≠ 0 then (conf.1, c.ReadTimeout) else conf
  conf

/-- The run context `Run` builds before its loop over the tests -/
def Run.context {χ : Type} (env : Env χ) (trace : Trace) (c : Config) : TestRunContext :=
  let maxMarkerRetries := c.MaxMarkerRetries
  let maxMarkerLogLines := c.MaxMarkerLogLines
  let maxMarkerRetries := if maxMarkerRetries = 0 then 20 else maxMarkerRetries
  let maxMarkerLogLines := if maxMarkerLogLines = 0 then 500 else maxMarkerLogLines
  { Include := c.Include
    Exclude := c.Exclude
    ShowTime := c.ShowTime
    ShowOnlyFailed := c.ShowOnlyFailed
    MaxMarkerRetries := maxMarkerRetries
    MaxMarkerLogLines := maxMarkerLogLines
    Stats := NewRunStats
    RunMode := env.FTWConfig.RunMode
    Result := .Success
    trace := trace }

/-- The function `Run`.  `trace` is the history before the call. -/
def Run {χ : Type} (env : Env χ) (trace : Trace) (tests : List FTWTest) (c : Config) :
    TestRunContext × Option GoError :=
  let trace := trace ++ [.println "** Running go-ftw!"]
  match env.NewFTWLogLines env.FTWConfig.LogFile with
  | some err => (emptyRunContext trace, some err)
  | none =>
    let conf := Run.clientConfig env c
    match env.NewClient conf.1 conf.2 with
    | some err => (emptyRunContext trace, some err)
    | none =>
      let runContext := Run.context env trace c
      match runTests env tests runContext with
      | (runContext, some err) => (emptyRunContext runContext.trace, some err)
      | (runContext, none) =>
        let runContext := runContext.log .printSummary
        -- the deferred cleanLogs
        let runContext := runContext.log .cleanup
        (runContext, none)

/-! ## `cmd/run.go` -/

/-- The flags of the `run` command as `RunE` reads them; `incl` is the flag `include`,
a reserved word here -/
structure RunFlags where
  exclude : String
  incl : String
  id : String
  dir : String
  time : Bool
  showFailuresOnly : Bool
  output : String
  connectTimeout : Duration
  readTimeout : Duration
  maxMarkerRetries : Int
  maxMarkerLogLines : Int

/-- The package variable `cfg` of `cmd`, as far as `RunE` writes it -/
structure CmdConfig where
  MaxMarkerRetries : Int
  MaxMarkerLogLines : Int
deriving DecidableEq, Repr

/-- How `RunE` ends: it returns an error or nil, or `regexp.MustCompile` panics -/
inductive CmdResult where
  | returned (err : Option GoError)
  | panicked
deriving DecidableEq, Repr

/-- The state `RunE` leaves behind and its result -/
structure CmdOutcome where
  SilenceUsage : Bool
  cfg : CmdConfig
  trace : Trace
  result : CmdResult

/-- The function `runCmd.RunE`.  `cmd/run.go` hands the marker limits to the runner inside
`cfg` and the other settings inside a `RunnerConfig`; `Run` of `runner/run.go` reads all of
them from its one `Config`, which is built here from both. -/
def RunE {χ : Type} (env : Env χ) (cfg : CmdConfig) (flags : RunFlags) (trace : Trace) :
    CmdOutcome :=
  if flags.id ≠ "" then
    { SilenceUsage := false, cfg := cfg, trace := trace,
      result := .returned (some (.msg "--id is deprecated in favour of --include|-i")) }
  else if flags.exclude ≠ "" ∧ flags.incl ≠ "" then
    { SilenceUsage := false, cfg := cfg, trace := trace,
      result := .returned
        (some (.msg "you need to choose one: use --include (%s) or --exclude (%s)")) }
  else
    let cfg : CmdConfig :=
      if flags.maxMarkerRetries ≠ 0 then { cfg with MaxMarkerRetries := flags.maxMarkerRetries }
      else cfg
    let cfg : CmdConfig :=
      if flags.maxMarkerLogLines ≠ 0 then
        { cfg with MaxMarkerLogLines := flags.maxMarkerLogLines }
      else cfg
    let files := flags.dir ++ "/**/*.yaml"
    let loaded := env.GetTestsFromFiles trace files
    let trace := trace ++ [.getTestsFromFiles files]
    match loaded.2 with
    | some err => { SilenceUsage := true, cfg := cfg, trace := trace, result := .returned (some err) }
    | none =>
      let includeRE : Option (Option Regexp) :=
        if flags.incl ≠ "" then (env.MustCompile flags.incl).map some else some none
      let excludeRE : Option (Option Regexp) :=
        if flags.exclude ≠ "" then (env.MustCompile flags.exclude).map some else some none
      match includeRE, excludeRE with
      | some includeRE, some excludeRE =>
        let trace := trace ++ [.println "** Starting tests!"]
        let ran := Run env trace loaded.1
          { Include := includeRE
            Exclude := excludeRE
            ShowTime := flags.time
            ShowOnlyFailed := flags.showFailuresOnly
            ConnectTimeout := flags.connectTimeout
            ReadTimeout := flags.readTimeout
            MaxMarkerRetries := cfg.MaxMarkerRetries
            MaxMarkerLogLines := cfg.MaxMarkerLogLines }
        match ran.2 with
        | some err =>
          { SilenceUsage := true, cfg := cfg, trace := ran.1.trace, result := .returned (some err) }
        | none =>
          if env.TotalFailed ran.1.Stats > 0 then
            { SilenceUsage := true, cfg := cfg, trace := ran.1.trace,
              result := .returned (some (.msg "failed %d tests")) }
          else
            { SilenceUsage := true, cfg := cfg, trace := ran.1.trace, result := .returned none }
      | _, _ => { SilenceUsage := true, cfg := cfg, trace := trace, result := .panicked }

/-! ## Observations on a history -/

/-- The verdicts recorded in a history, oldest first -/
def verdicts (tr : Trace) : List TestResult :=
  tr.filterMap fun e =>
    match e with
    | .addResultToStats r _ _ => some r
    | _ => none

/-- Whether a call reaches the network or the log: a connection, a request sent, a read
of the log for a marker -/
def Event.isContact : Event → Bool
  | .newConnection _ => true
  | .newOrReusedConnection _ => true
  | .doRequest _ => true
  | .checkLogForMarker _ _ => true
  | _ => false

/-- The calls of a history that reach the network or the log -/
def contacts (tr : Trace) : Trace := tr.filter Event.isContact

/-- The requests sent in a history, oldest first -/
def requestsSent (tr : Trace) : List Request :=
  tr.filterMap fun e =>
    match e with
    | .doRequest req => some req
    | _ => none

/-- The destination `RunStage` computes for a stage -/
def stageDest (cfg : FTWConfiguration) (stage : Stage) : Destination :=
  let testRequest := (applyInputOverride cfg stage.Input).1
  { DestAddr := testRequest.GetDestAddr
    Port := testRequest.GetPort
    Protocol := testRequest.GetProtocol }

/-- The test request `RunStage` builds for a stage -/
def stageRequest {χ : Type} (env : Env χ) (stage : Stage) : Request :=
  getRequestFromTest env (applyInputOverride env.FTWConfig stage.Input).1

/-- The search for the start marker as `RunStage` makes it outside cloud mode -/
def startMarkerSearch {χ : Type} (env : Env χ) (runContext : TestRunContext)
    (stage : Stage) : MarkResult :=
  markAndFlush env runContext (stageDest env.FTWConfig stage) (env.NewString runContext.trace)

/-- The run context with which `RunStage` reaches the connection to the destination, when
the search for the start marker has not ended the stage -/
def contextAtConnect {χ : Type} (env : Env χ) (runContext : TestRunContext) (ftwCheck : χ)
    (stage : Stage) : TestRunContext :=
  if notRunningInCloudMode env ftwCheck then
    let r := startMarkerSearch env runContext stage
    r.ctx.log (.setStartMarker r.marker)
  else runContext

/-- The run context after the connection and the send of the test request, with which
`RunStage` reaches the search for the end marker -/
def contextAfterSend {χ : Type} (env : Env χ) (runContext : TestRunContext) (ftwCheck : χ)
    (stage : Stage) : TestRunContext :=
  ((((contextAtConnect env runContext ftwCheck stage).log
    (.newConnection (stageDest env.FTWConfig stage))).log .startTrackingTime).log
    (.doRequest (stageRequest env stage))).log .stopTrackingTime

/-- The error of the connection attempt of a stage, given that the stage reaches it -/
def connectError {χ : Type} (env : Env χ) (runContext : TestRunContext) (ftwCheck : χ)
    (stage : Stage) : Option GoError :=
  env.NewConnection (contextAtConnect env runContext ftwCheck stage).trace
    (stageDest env.FTWConfig stage)

/-- The answer to the test request of a stage, given that the stage reaches the send -/
def sendAnswer {χ : Type} (env : Env χ) (runContext : TestRunContext) (ftwCheck : χ)
    (stage : Stage) : Option Response × Option GoError :=
  env.Do
    (((contextAtConnect env runContext ftwCheck stage).log
      (.newConnection (stageDest env.FTWConfig stage))).log .startTrackingTime).trace
    (stageRequest env stage)

/-- The search for the end marker as `RunStage` makes it outside cloud mode, given that the
stage reaches it -/
def endMarkerSearch {χ : Type} (env : Env χ) (runContext : TestRunContext) (ftwCheck : χ)
    (stage : Stage) : MarkResult :=
  markAndFlush env (contextAfterSend env runContext ftwCheck stage)
    (stageDest env.FTWConfig stage) (env.NewString runContext.trace)

/-- The check object with which `RunStage` reaches the connection to the destination: the
start marker is set outside cloud mode -/
def checkAtSend {χ : Type} (env : Env χ) (runContext : TestRunContext) (ftwCheck : χ)
    (stage : Stage) : χ :=
  if notRunningInCloudMode env ftwCheck then
    env.SetStartMarker ftwCheck (startMarkerSearch env runContext stage).marker
  else ftwCheck

/-- The run context with which `RunStage` reaches the resolution of the verdict, when no
step before has ended the stage -/
def contextAtFinish {χ : Type} (env : Env χ) (runContext : TestRunContext) (ftwCheck : χ)
    (stage : Stage) : TestRunContext :=
  if notRunningInCloudMode env (checkAtSend env runContext ftwCheck stage) then
    let r := endMarkerSearch env runContext ftwCheck stage
    r.ctx.log (.setEndMarker r.marker)
  else contextAfterSend env runContext ftwCheck stage

/-- The check object with which `RunStage` reaches the resolution of the verdict -/
def checkAtFinish {χ : Type} (env : Env χ) (runContext : TestRunContext) (ftwCheck : χ)
    (stage : Stage) : χ :=
  if notRunningInCloudMode env (checkAtSend env runContext ftwCheck stage) then
    env.SetEndMarker (checkAtSend env runContext ftwCheck stage)
      (endMarkerSearch env runContext ftwCheck stage).marker
  else checkAtSend env runContext ftwCheck stage

/-- The check object the assertions of `checkResult` are asked on: in cloud mode the one
`SetCloudMode` leaves -/
def checkConsulted {χ : Type} (env : Env χ) (c : χ) : χ :=
  if env.CloudMode c then env.SetCloudMode c else c

/-- Modelled from the spec: `FTWCheck.SetExpectTestOutput` and `FTWCheck.AssertExpectError`
are outside the files at hand; by section 4.4 of the spec a transport error counts as
expected exactly when the expectation handed to the check declares `expectError`. -/
def ExpectErrorContract {χ : Type} (env : Env χ) : Prop :=
  ∀ (c : χ) (expected : Output) (e : GoError),
    env.AssertExpectError (env.SetExpectTestOutput c expected) e = expected.ExpectError

/-- Two run contexts agree on the settings of the run: the patterns, the flags and the
marker limits -/
def sameSettings (a b : TestRunContext) : Prop :=
  a.Include = b.Include ∧ a.Exclude = b.Exclude ∧ a.ShowTime = b.ShowTime ∧
    a.ShowOnlyFailed = b.ShowOnlyFailed ∧ a.MaxMarkerRetries = b.MaxMarkerRetries ∧
    a.MaxMarkerLogLines = b.MaxMarkerLogLines ∧ a.RunMode = b.RunMode

/-- The calls of one round of the loop of `markAndFlush` that finds no marker or finds
it at its end: the probe connects, is sent, the log is read -/
def probeRound (dest : Destination) (req : Request) (stageID : String) (readLimit : Int) :
    Trace :=
  [.newOrReusedConnection dest, .doRequest req, .checkLogForMarker stageID readLimit]

/-- The calls of `j` such rounds -/
def probeRounds (dest : Destination) (req : Request) (stageID : String) (readLimit : Int) :
    Nat → Trace
  | 0 => []
  | j + 1 => probeRound dest req stageID readLimit ++ probeRounds dest req stageID readLimit j

/-- What the log read answers in round `j`, counted from 0, of a marker search that starts
at the history `tr`, when the probe of that round and of each round before connected and
was sent; `none` when the probe of round `j` fails to connect or to be sent -/
def roundAnswer {χ : Type} (env : Env χ) (tr : Trace) (dest : Destination) (req : Request)
    (stageID : String) (readLimit : Int) (j : Nat) : Option (Option Bytes) :=
  let before := tr ++ probeRounds dest req stageID readLimit j
  if env.NewOrReusedConnection before dest = none ∧
      (env.Do (before ++ [.newOrReusedConnection dest]) req).2 = none then
    some (env.CheckLogForMarker (before ++ [.newOrReusedConnection dest, .doRequest req])
      stageID readLimit)
  else none

/-! ## A scripted environment for the worked examples -/

/-- A check object for the worked examples.  It keeps the tables of forced verdicts, the
cloud-mode flag, the expectation and the two markers. -/
structure SampleCheck where
  cloud : Bool
  ignore : List String
  forceFail : List String
  forcePass : List String
  expected : Option Output
  startMarker : Option Bytes
  endMarker : Option Bytes
deriving DecidableEq, Repr

/-- What the surroundings of a worked example do: the forced verdicts, the answers of the
client to the test request and to the probes, and what the log shows -/
structure Script where
  cloud : Bool
  ignore : List String
  forceFail : List String
  forcePass : List String
  /-- the error of `NewConnection` -/
  connectError : Option GoError
  /-- the error of `Do` on the test request, the one sent right after `StartTrackingTime` -/
  sendError : Option GoError
  /-- the error of `Do` on a marker probe -/
  probeError : Option GoError
  /-- the error of `NewOrReusedConnection`, the connection of a marker probe -/
  probeConnectError : Option GoError
  /-- the response to the test request -/
  response : Option Response
  /-- the first read of the log, counted over the whole history, that shows the marker -/
  markerFrom : Option Nat
  /-- the last read of the log that shows the marker, when there is one -/
  markerUntil : Option Nat
  /-- whether the bracketed log region matches the log pattern asked for -/
  logMatches : Bool
  /-- the test files found below the directory of the `run` command -/
  files : List FTWTest

/-- The number of reads of the log for a marker in a history -/
def logReads (tr : Trace) : Nat :=
  tr.countP fun e =>
    match e with
    | .checkLogForMarker _ _ => true
    | _ => false

/-- The environment of the worked examples, driven by a script.  Its assertions follow
section 4.4 of the spec, with a pattern matching a text when the two are equal. -/
def scriptedEnv (s : Script) : Env SampleCheck where
  FTWConfig :=
    { LogFile := "/var/log/waf.log", LogMarkerHeaderName := "X-Marker", RunMode := "default",
      TestOverrideInput := { Port := none, DestAddr := none, Protocol := none } }
  Now := fun tr => tr.length
  NewString := fun _ => "stage-1"
  NewCheck := fun _ =>
    { cloud := s.cloud, ignore := s.ignore, forceFail := s.forceFail,
      forcePass := s.forcePass, expected := none, startMarker := none, endMarker := none }
  ForcedIgnore := fun c id => c.ignore.contains id
  ForcedFail := fun c id => c.forceFail.contains id
  ForcedPass := fun c id => c.forcePass.contains id
  CloudMode := fun c => c.cloud
  SetCloudMode := fun c =>
    { c with expected := c.expected.map fun o => { o with LogContains := "", NoLogContains := "" } }
  SetStartMarker := fun c m => { c with startMarker := m }
  SetEndMarker := fun c m => { c with endMarker := m }
  SetExpectTestOutput := fun c o => { c with expected := some o }
  AssertExpectError := fun c _ =>
    match c.expected with
    | some o => o.ExpectError
    | none => false
  AssertStatus := fun c code =>
    match c.expected with
    | some o => o.Status.contains code
    | none => false
  AssertResponseContains := fun c body =>
    match c.expected with
    | some o => o.ResponseContains != "" && body == o.ResponseContains
    | none => false
  AssertLogContains := fun _ c =>
    match c.expected with
    | some o => o.LogContains != "" && s.logMatches
    | none => false
  AssertNoLogContains := fun _ c =>
    match c.expected with
    | some o => o.NoLogContains != "" && !s.logMatches
    | none => false
  NewConnection := fun _ _ => s.connectError
  NewOrReusedConnection := fun _ _ => s.probeConnectError
  Do := fun tr _ =>
    if tr.getLast? = some .startTrackingTime then
      match s.sendError with
      | some e => (none, some e)
      | none => (s.response, none)
    else (none, s.probeError)
  RoundTripDuration := fun _ => 1
  CheckLogForMarker := fun tr stageID _ =>
    match s.markerFrom with
    | some k =>
      let stillThere : Bool :=
        match s.markerUntil with
        | some u => decide (logReads tr + 1 ≤ u)
        | none => true
      if k ≤ logReads tr + 1 ∧ stillThere = true then some (stageID.data.map Char.toNat)
      else none
    | none => none
  GetRawRequest := fun i =>
    if i.RAWRequest != "" then (some (i.RAWRequest.data.map Char.toNat), none) else (none, none)
  ParseData := fun i => i.Data.map fun d => d.data.map Char.toNat
  NewFTWLogLines := fun _ => none
  GetTestsFromFiles := fun _ _ => (s.files, none)
  MustCompile := fun pattern => some { MatchString := fun title => title == pattern }
  TotalFailed := fun stats => stats.Failed
  NewClientConfig := (3000000000, 1000000000)
  NewClient := fun _ _ => none

/-- A script in which nothing is forced, every call succeeds, the answer is a 200 and the
marker shows at the first read of the log -/
def quietScript : Script :=
  { cloud := false, ignore := [], forceFail := [], forcePass := [], connectError := none,
    sendError := none, probeError := none, probeConnectError := none,
    response := some { RAW := [], StatusCode := 200, Body := "" },
    markerFrom := some 1, markerUntil := none, logMatches := false, files := [] }

/-- A pattern that matches every title, such as `.*` -/
def matchAll : Regexp := { MatchString := fun _ => true }

/-- An input with the structured fields only -/
def plainInput : Input :=
  { DestAddr := none, Port := none, Protocol := none, URI := some "/", Version := none,
    Method := some "GET", Headers := some [("Host", "localhost")], Data := none,
    EncodedRequest := "", RAWRequest := "", StopMagic := false }

/-- An expectation of the status 200 -/
def expect200 : Output :=
  { Status := [200], ResponseContains := "", LogContains := "", NoLogContains := "",
    ExpectError := false }

/-- A run context as `Run` builds it from an empty configuration -/
def sampleContext : TestRunContext :=
  { Include := none, Exclude := none, ShowTime := false, ShowOnlyFailed := false,
    MaxMarkerRetries := 3, MaxMarkerLogLines := 500, Stats := NewRunStats,
    RunMode := "default", Result := .Success, trace := [] }

/-- The flags of a `run` command with both an include and an exclude pattern -/
def bothPatterns : RunFlags :=
  { exclude := "920.*", incl := "911.*", id := "", dir := ".", time := false,
    showFailuresOnly := false, output := "normal", connectTimeout := 3000000000,
    readTimeout := 1000000000, maxMarkerRetries := 20, maxMarkerLogLines := 500 }

/-- The number of request shapes of an input that are populated: the body data, the encoded
blob, the raw bytes -/
def populatedShapes (i : Input) : Nat :=
  (if IsNotEmpty i.Data then 1 else 0) + (if i.EncodedRequest ≠ "" then 1 else 0) +
    (if i.RAWRequest ≠ "" then 1 else 0)

/-- An input with both body data and raw bytes -/
def ambiguousInput : Input :=
  { plainInput with Data := some "a=b", RAWRequest := "GET / HTTP/1.1\r\n\r\n" }

/-- A script whose override table marks the title 920100-1 as ignored -/
def ignoreScript : Script := { quietScript with ignore := ["920100-1"] }

/-- A test case with the title 920100-1 -/
def sampleCase (stages : List Stage) : Test := { TestTitle := "920100-1", Stages := stages }

/-- A script in which the log never shows the marker -/
def silentLogScript : Script := { quietScript with markerFrom := none }

/-- A script in which the log shows the marker from its second read on -/
def lateMarkerScript : Script := { quietScript with markerFrom := some 2 }

/-- The destination of the worked examples -/
def sampleDest : Destination := { DestAddr := "localhost", Port := 80, Protocol := "http" }

/-- A response with the status 403 -/
def response403 : Response := { RAW := [], StatusCode := 403, Body := "Forbidden" }

/-- A script in which the answer is a 403 and the log matches the pattern asked for -/
def blockedScript : Script :=
  { quietScript with response := some response403, logMatches := true }

/-- A script in which the answer is a 403 and the log shows nothing of interest -/
def unloggedScript : Script := { quietScript with response := some response403 }

/-- An expectation of the status 200 or of the log line of rule 920100 -/
def expectLog : Output :=
  { Status := [200], ResponseContains := "", LogContains := "id 920100",
    NoLogContains := "", ExpectError := false }

/-- The check object of a script once the expectation is set -/
def checkExpecting (s : Script) (expected : Output) : SampleCheck :=
  (scriptedEnv s).SetExpectTestOutput ((scriptedEnv s).NewCheck (scriptedEnv s).FTWConfig)
    expected

/-- A script in which the log shows the marker at its first read only -/
def lostMarkerScript : Script := { quietScript with markerUntil := some 1 }

/-- A script in which the destination refuses the test request -/
def refusedScript : Script :=
  { quietScript with sendError := some (.msg "connection refused"), response := none }

/-- A script in which the destination cannot be connected to -/
def unreachableScript : Script :=
  { quietScript with connectError := some (.msg "dial tcp: connection refused") }

/-- An expectation of a transport error -/
def expectFailure : Output := { expect200 with Status := [], ExpectError := true }

/-- The check object `RunTest` creates for a stage of a script -/
def freshCheck (s : Script) : SampleCheck :=
  (scriptedEnv s).NewCheck (scriptedEnv s).FTWConfig

/-- A stage with the plain input -/
def plainStage (expected : Output) : Stage := { Input := plainInput, Output := expected }

/-- A configuration of `Run` with three marker retries and nothing else set -/
def sampleConfig : Config :=
  { Include := none, Exclude := none, ShowTime := false, ShowOnlyFailed := false,
    ConnectTimeout := 0, ReadTimeout := 0, MaxMarkerRetries := 3, MaxMarkerLogLines := 0 }

/-- The run context with which `Run` enters its loop, under a script -/
def startedContext (s : Script) : TestRunContext :=
  Run.context (scriptedEnv s) [.println "** Running go-ftw!"] sampleConfig

/-- The run context with which the first stage of the first test case is run -/
def announcedContext (s : Script) : TestRunContext :=
  (announceTestCase true (startedContext s)).1

/-- The metadata of an enabled test file -/
def sampleMeta : Meta := { Enabled := true, Name := "920100.yaml" }

/-- A test case of two stages that expect the status 200 -/
def twoStageCase : Test := sampleCase [plainStage expect200, plainStage expect200]

/-- A test file with the test case of two stages and a second test case -/
def sampleFile : FTWTest :=
  { Meta := sampleMeta,
    Tests := [twoStageCase, { TestTitle := "920100-2", Stages := [plainStage expect200] }] }

/-- A script in which no marker probe can connect -/
def deadProbeConnectionScript : Script :=
  { quietScript with probeConnectError := some (.msg "dial tcp: connection refused") }

/-- A script in which every marker probe is cut off while being sent -/
def deadProbeScript : Script :=
  { quietScript with probeError := some (.msg "connection reset by peer") }

/-- Whether a call belongs to the marker protocol alone: a probe connecting, a read of the
log for a marker, the setting of a marker on the check object.  The probe itself is sent
by `Client.Do`, as the test request is, and is told apart by the request sent. -/
def Event.isMarkerCall : Event → Bool
  | .newOrReusedConnection _ => true
  | .checkLogForMarker _ _ => true
  | .setStartMarker _ => true
  | .setEndMarker _ => true
  | _ => false

/-- Whether a call sets a marker on the check object; `RunStage` makes one such call after
each of its marker searches that does not end the stage -/
def Event.isMarkerSet : Event → Bool
  | .setStartMarker _ => true
  | .setEndMarker _ => true
  | _ => false

/-- The markers set on the check object in a history, oldest first -/
def markersSet (tr : Trace) : Trace := tr.filter Event.isMarkerSet

/-- The calls of a history that belong to the marker protocol alone -/
def markerCalls (tr : Trace) : Trace := tr.filter Event.isMarkerCall

/-- The number of verdicts the statistics hold -/
def RunStats.scored (stats : RunStats) : Nat :=
  stats.Success + stats.Failed + stats.Skipped + stats.Ignored + stats.ForcedPass +
    stats.ForcedFail

/-- A script of a run in cloud mode -/
def cloudScript : Script := { quietScript with cloud := true }

/-- The configuration `RunE` hands to `Run`: the compiled patterns, the flags, and the
marker limits of `cfg`, each replaced by its flag when that is not 0 -/
def RunE.runnerConfig (cfg : CmdConfig) (flags : RunFlags) (includeRE excludeRE : Option Regexp) :
    Config :=
  { Include := includeRE
    Exclude := excludeRE
    ShowTime := flags.time
    ShowOnlyFailed := flags.showFailuresOnly
    ConnectTimeout := flags.connectTimeout
    ReadTimeout := flags.readTimeout
    MaxMarkerRetries :=
      if flags.maxMarkerRetries ≠ 0 then flags.maxMarkerRetries else cfg.MaxMarkerRetries
    MaxMarkerLogLines :=
      if flags.maxMarkerLogLines ≠ 0 then flags.maxMarkerLogLines else cfg.MaxMarkerLogLines }

/-- The pattern of a flag as `RunE` compiles it: nil for an empty flag; `none` when
`regexp.MustCompile` panics -/
def RunE.pattern {χ : Type} (env : Env χ) (flag : String) : Option (Option Regexp) :=
  if flag ≠ "" then (env.MustCompile flag).map some else some none

/-- The flags of a `run` command over the current directory, with no pattern -/
def plainFlags : RunFlags := { bothPatterns with exclude := "", incl := "" }

/-- A script in which one test file is found and the answer to every test request is a 403 -/
def failingScript : Script := { unloggedScript with files := [sampleFile] }

/-- The package variable `cfg` with no marker limit set -/
def emptyCmdConfig : CmdConfig := { MaxMarkerRetries := 0, MaxMarkerLogLines := 0 }

/-- The run context `Run` hands back to `RunE` under a script, for the plain flags -/
def ranContext (s : Script) : TestRunContext :=
  (Run (scriptedEnv s)
    ([] ++ [.getTestsFromFiles (plainFlags.dir ++ "/**/*.yaml")] ++
      [.println "** Starting tests!"])
    ((scriptedEnv s).GetTestsFromFiles [] (plainFlags.dir ++ "/**/*.yaml")).1
    (RunE.runnerConfig emptyCmdConfig plainFlags none none)).1

/-- A configuration that sends every test to port 8080 of the host `waf.example` -/
def overridingConfig : FTWConfiguration :=
  { LogFile := "/var/log/waf.log", LogMarkerHeaderName := "X-Marker", RunMode := "default",
    TestOverrideInput := { Port := some 8080, DestAddr := some "waf.example", Protocol := none } }

/-- An input with no header at all -/
def bareInput : Input := { plainInput with Headers := none }

/-- A configuration of `Run` in which nothing is set, the two marker limits neither -/
def zeroLimitsConfig : Config := { sampleConfig with MaxMarkerRetries := 0 }

/-- A pattern for the titles of the rules 911, such as `^911` -/
def rule911 : Regexp :=
  { MatchString := fun title => title.data.take 3 == ['9', '1', '1'] }

/-! ## Theorems -/

/-! ### The skip rule -/

/-- C1, as stated, fails: a disabled test whose title matches the include pattern is
skipped. -/
theorem needToSkipTest_included_disabled_skipped :
    matchAll.MatchString "920100-1" = true ∧
      needToSkipTest (some matchAll) none "920100-1" false = true := by
  decide

/-- C1, amended: an enabled test whose title matches the include pattern is not skipped,
whatever the exclude pattern. -/
theorem needToSkipTest_included_enabled (re : Regexp) (exclude : Option Regexp)
    (title : String) (hmatch : re.MatchString title = true) :
    needToSkipTest (some re) exclude title true = false := by
  simp [needToSkipTest, hmatch]

/-- An instance of C1 as amended: the title 920100-1, enabled, included by a pattern that
also excludes it. -/
theorem needToSkipTest_included_enabled_witness :
    needToSkipTest (some matchAll) (some matchAll) "920100-1" true = false :=
  needToSkipTest_included_enabled matchAll (some matchAll) "920100-1" rfl

/-! ### Histories -/

theorem verdicts_append (a b : Trace) : verdicts (a ++ b) = verdicts a ++ verdicts b := by
  simp [verdicts, List.filterMap_append]

theorem contacts_append (a b : Trace) : contacts (a ++ b) = contacts a ++ contacts b := by
  simp [contacts]

theorem requestsSent_append (a b : Trace) :
    requestsSent (a ++ b) = requestsSent a ++ requestsSent b := by
  simp [requestsSent, List.filterMap_append]

theorem displayResult_Stats (rc : TestRunContext) (r : TestResult) (a b : Duration) :
    (displayResult rc r a b).Stats = rc.Stats := by
  cases r <;> simp [displayResult, TestRunContext.log] <;> split <;> rfl

theorem displayResult_verdicts (rc : TestRunContext) (r : TestResult) (a b : Duration) :
    verdicts (displayResult rc r a b).trace = verdicts rc.trace := by
  cases r <;> simp [displayResult, TestRunContext.log] <;>
    first
      | rfl
      | (split <;> simp [verdicts_append, verdicts])
      | simp [verdicts_append, verdicts]

theorem displayResult_contacts (rc : TestRunContext) (r : TestResult) (a b : Duration) :
    contacts (displayResult rc r a b).trace = contacts rc.trace := by
  cases r <;> simp [displayResult, TestRunContext.log] <;>
    first
      | rfl
      | (split <;> simp [contacts_append, contacts, Event.isContact])
      | simp [contacts_append, contacts, Event.isContact]

/-! ### The sanity check -/

theorem applyInputOverride_Data (cfg : FTWConfiguration) (i : Input) :
    (applyInputOverride cfg i).1.Data = i.Data := by
  obtain ⟨_, _, _, ⟨port, addr, proto⟩⟩ := cfg
  cases port <;> cases addr <;> cases proto <;> simp only [applyInputOverride] <;>
    repeat (first | rfl | split)

theorem applyInputOverride_EncodedRequest (cfg : FTWConfiguration) (i : Input) :
    (applyInputOverride cfg i).1.EncodedRequest = i.EncodedRequest := by
  obtain ⟨_, _, _, ⟨port, addr, proto⟩⟩ := cfg
  cases port <;> cases addr <;> cases proto <;> simp only [applyInputOverride] <;>
    repeat (first | rfl | split)

theorem applyInputOverride_RAWRequest (cfg : FTWConfiguration) (i : Input) :
    (applyInputOverride cfg i).1.RAWRequest = i.RAWRequest := by
  obtain ⟨_, _, _, ⟨port, addr, proto⟩⟩ := cfg
  cases port <;> cases addr <;> cases proto <;> simp only [applyInputOverride] <;>
    repeat (first | rfl | split)

theorem checkTestSanity_applyInputOverride (cfg : FTWConfiguration) (i : Input) :
    checkTestSanity (applyInputOverride cfg i).1 = checkTestSanity i := by
  simp [checkTestSanity, applyInputOverride_Data, applyInputOverride_EncodedRequest,
    applyInputOverride_RAWRequest]

theorem checkTestSanity_of_populated (i : Input) (h : 2 ≤ populatedShapes i) :
    checkTestSanity i = true := by
  unfold populatedShapes at h
  unfold checkTestSanity
  by_cases hd : IsNotEmpty i.Data = true <;> by_cases he : i.EncodedRequest = "" <;>
    by_cases hr : i.RAWRequest = "" <;> simp_all

/-- C3: a stage input with two or more of the body data, the encoded blob and the raw bytes
populated fails the sanity check, and `RunStage` returns `errBadTestRequest` with the run
context as it was: no verdict is recorded and nothing is sent. -/
theorem RunStage_ambiguous_input {χ : Type} (env : Env χ) (runContext : TestRunContext)
    (ftwCheck : χ) (testCase : Test) (stage : Stage)
    (h : 2 ≤ populatedShapes stage.Input) :
    checkTestSanity stage.Input = true ∧
      RunStage env runContext ftwCheck testCase stage =
        (runContext, some errBadTestRequest) := by
  have hs := checkTestSanity_of_populated stage.Input h
  refine ⟨hs, ?_⟩
  simp [RunStage, checkTestSanity_applyInputOverride, hs]

/-- An instance of C3: body data together with raw bytes. -/
theorem RunStage_ambiguous_input_witness :
    2 ≤ populatedShapes ambiguousInput ∧
      (RunStage (scriptedEnv quietScript) sampleContext
        ((scriptedEnv quietScript).NewCheck (scriptedEnv quietScript).FTWConfig)
        (sampleCase []) { Input := ambiguousInput, Output := expect200 }).2 =
        some errBadTestRequest :=
  ⟨by decide,
    congrArg Prod.snd
      (RunStage_ambiguous_input (scriptedEnv quietScript) sampleContext
        ((scriptedEnv quietScript).NewCheck (scriptedEnv quietScript).FTWConfig)
        (sampleCase []) { Input := ambiguousInput, Output := expect200 } (by decide)).2⟩

/-! ### The run command -/

/-- C4: with an include and an exclude pattern that are both non-empty, `RunE` returns an
error with the history as it was: no test definition is loaded and `runner.Run` is not
called. -/
theorem RunE_include_and_exclude_rejected {χ : Type} (env : Env χ) (cfg : CmdConfig)
    (flags : RunFlags) (trace : Trace)
    (hinclude : flags.incl ≠ "") (hexclude : flags.exclude ≠ "") :
    (∃ err, (RunE env cfg flags trace).result = .returned (some err)) ∧
      (RunE env cfg flags trace).trace = trace ∧
      (RunE env cfg flags trace).cfg = cfg := by
  unfold RunE
  by_cases hid : flags.id = ""
  · simp [hid, hinclude, hexclude]
  · simp [hid]

/-- An instance of C4: the patterns 911.* and 920.* together. -/
theorem RunE_include_and_exclude_rejected_witness :
    (RunE (scriptedEnv quietScript) { MaxMarkerRetries := 0, MaxMarkerLogLines := 0 }
      bothPatterns []).trace = [] :=
  (RunE_include_and_exclude_rejected (scriptedEnv quietScript)
    { MaxMarkerRetries := 0, MaxMarkerLogLines := 0 } bothPatterns [] (by decide)
    (by decide)).2.1

/-! ### The marker search -/

theorem requestsSent_probeRounds (dest : Destination) (req : Request) (stageID : String)
    (readLimit : Int) (j : Nat) :
    requestsSent (probeRounds dest req stageID readLimit j) = List.replicate j req := by
  induction j with
  | zero => rfl
  | succ j ih =>
    simp [probeRounds, requestsSent_append, ih, List.replicate_succ]
    simp [requestsSent, probeRound]

theorem verdicts_probeRounds (dest : Destination) (req : Request) (stageID : String)
    (readLimit : Int) (j : Nat) :
    verdicts (probeRounds dest req stageID readLimit j) = [] := by
  induction j with
  | zero => rfl
  | succ j ih =>
    simp [probeRounds, verdicts_append, ih]
    simp [verdicts, probeRound]

theorem probeRounds_succ_end (dest : Destination) (req : Request) (stageID : String)
    (readLimit : Int) (j : Nat) :
    probeRounds dest req stageID readLimit (j + 1) =
      probeRounds dest req stageID readLimit j ++ probeRound dest req stageID readLimit := by
  induction j with
  | zero => simp [probeRounds]
  | succ j ih =>
    simp only [probeRounds] at ih ⊢
    rw [List.append_assoc, ← ih]

/-- One round that finds nothing leaves the loop with one round less and the three calls
in the history. -/
theorem markAndFlushLoop_round_nothing {χ : Type} (env : Env χ) (dest : Destination)
    (stageID : String) (req : Request) (i : Nat) (rc : TestRunContext)
    (h : roundAnswer env rc.trace dest req stageID rc.MaxMarkerLogLines 0 = some none) :
    markAndFlushLoop env dest stageID req (i + 1) rc =
      markAndFlushLoop env dest stageID req i
        { rc with trace := rc.trace ++ probeRound dest req stageID rc.MaxMarkerLogLines } := by
  simp only [roundAnswer, probeRounds, List.append_nil] at h
  split at h
  · rename_i hc
    obtain ⟨h1, h2⟩ := hc
    simp only [Option.some.injEq] at h
    simp [markAndFlushLoop, TestRunContext.log, h1, h2, h, probeRound]
  · simp at h

/-- One round that finds the marker ends the search with it. -/
theorem markAndFlushLoop_round_found {χ : Type} (env : Env χ) (dest : Destination)
    (stageID : String) (req : Request) (i : Nat) (rc : TestRunContext) (m : Bytes)
    (h : roundAnswer env rc.trace dest req stageID rc.MaxMarkerLogLines 0 = some (some m)) :
    markAndFlushLoop env dest stageID req (i + 1) rc =
      { ctx :=
          { rc with trace := rc.trace ++ probeRound dest req stageID rc.MaxMarkerLogLines },
        marker := some m, err := none } := by
  simp only [roundAnswer, probeRounds, List.append_nil] at h
  split at h
  · rename_i hc
    obtain ⟨h1, h2⟩ := hc
    simp only [Option.some.injEq] at h
    simp [markAndFlushLoop, TestRunContext.log, h1, h2, h, probeRound]
  · simp at h

theorem roundAnswer_shift {χ : Type} (env : Env χ) (tr : Trace) (dest : Destination)
    (req : Request) (stageID : String) (readLimit : Int) (j : Nat) :
    roundAnswer env (tr ++ probeRound dest req stageID readLimit) dest req stageID readLimit j =
      roundAnswer env tr dest req stageID readLimit (j + 1) := by
  simp [roundAnswer, probeRounds, List.append_assoc]

/-- After `j` rounds that find nothing the loop goes on with `j` rounds less. -/
theorem markAndFlushLoop_rounds_nothing {χ : Type} (env : Env χ) (dest : Destination)
    (stageID : String) (req : Request) (j : Nat) :
    ∀ (i : Nat) (rc : TestRunContext),
      (∀ l, l < j → roundAnswer env rc.trace dest req stageID rc.MaxMarkerLogLines l = some none) →
      markAndFlushLoop env dest stageID req (i + j) rc =
        markAndFlushLoop env dest stageID req i
          { rc with
            trace := rc.trace ++ probeRounds dest req stageID rc.MaxMarkerLogLines j } := by
  induction j with
  | zero => intro i rc _; simp [probeRounds]
  | succ j ih =>
    intro i rc h
    have h0 := h 0 (Nat.succ_pos j)
    have hstep := markAndFlushLoop_round_nothing env dest stageID req (i + j) rc h0
    rw [show i + (j + 1) = i + j + 1 from rfl, hstep]
    rw [ih i _ (fun l hl => by
      have := h (l + 1) (Nat.succ_lt_succ hl)
      simpa [roundAnswer_shift] using this)]
    simp [probeRounds, List.append_assoc]

/-- C7: with the retry limit n = MaxMarkerRetries, if in each of the n rounds the probe
connects and is sent and the log read returns nil, `markAndFlush` goes through exactly n
rounds (none when n is not positive), sending one probe in each, and returns a nil marker
with the error that the log marker cannot be found, which wraps no transport error. -/
theorem markAndFlush_marker_never_found {χ : Type} (env : Env χ)
    (runContext : TestRunContext) (dest : Destination) (stageID : String)
    (hnothing : ∀ j, j < runContext.MaxMarkerRetries.toNat →
      roundAnswer env runContext.trace dest (markerRequest env.FTWConfig stageID) stageID
        runContext.MaxMarkerLogLines j = some none) :
    (markAndFlush env runContext dest stageID).marker = none ∧
      (markAndFlush env runContext dest stageID).err =
        some (.msg "can't find log marker. Am I reading the correct log? Log file: %s") ∧
      (markAndFlush env runContext dest stageID).ctx =
        { runContext with
          trace := runContext.trace ++
            probeRounds dest (markerRequest env.FTWConfig stageID) stageID
              runContext.MaxMarkerLogLines runContext.MaxMarkerRetries.toNat } ∧
      requestsSent (markAndFlush env runContext dest stageID).ctx.trace =
        requestsSent runContext.trace ++
          List.replicate runContext.MaxMarkerRetries.toNat
            (markerRequest env.FTWConfig stageID) ∧
      (runContext.MaxMarkerRetries ≤ 0 →
        (markAndFlush env runContext dest stageID).ctx = runContext) := by
  have key := markAndFlushLoop_rounds_nothing env dest stageID
    (markerRequest env.FTWConfig stageID) runContext.MaxMarkerRetries.toNat 0 runContext
    hnothing
  simp only [Nat.zero_add] at key
  have hctx : (markAndFlush env runContext dest stageID).ctx =
      { runContext with
        trace := runContext.trace ++
          probeRounds dest (markerRequest env.FTWConfig stageID) stageID
            runContext.MaxMarkerLogLines runContext.MaxMarkerRetries.toNat } := by
    simp [markAndFlush, key, markAndFlushLoop]
  refine ⟨?_, ?_, hctx, ?_, ?_⟩
  · simp [markAndFlush, key, markAndFlushLoop]
  · simp [markAndFlush, key, markAndFlushLoop]
  · rw [hctx]
    simp [requestsSent_append, requestsSent_probeRounds]
  · intro hn
    rw [hctx, Int.toNat_eq_zero.mpr hn]
    simp [probeRounds]

/-- An instance of C7: three retries against a log that never shows the marker. -/
theorem markAndFlush_marker_never_found_witness :
    (markAndFlush (scriptedEnv silentLogScript) sampleContext sampleDest "stage-1").marker =
        none ∧
      (markAndFlush (scriptedEnv silentLogScript) sampleContext sampleDest "stage-1").err =
        some (.msg "can't find log marker. Am I reading the correct log? Log file: %s") ∧
      requestsSent
          (markAndFlush (scriptedEnv silentLogScript) sampleContext sampleDest
            "stage-1").ctx.trace =
        requestsSent sampleContext.trace ++
          List.replicate sampleContext.MaxMarkerRetries.toNat
            (markerRequest (scriptedEnv silentLogScript).FTWConfig "stage-1") :=
  have h := markAndFlush_marker_never_found (scriptedEnv silentLogScript) sampleContext
    sampleDest "stage-1" (by decide)
  ⟨h.1, h.2.1, h.2.2.2.1⟩

/-- What a marker search adds to the history: no verdict, at most as many requests as
rounds, each of them the probe; the run context is otherwise as it was. -/
theorem markAndFlushLoop_frame {χ : Type} (env : Env χ) (dest : Destination)
    (stageID : String) (req : Request) (i : Nat) :
    ∀ rc : TestRunContext, ∃ new : Trace,
      (markAndFlushLoop env dest stageID req i rc).ctx = { rc with trace := rc.trace ++ new } ∧
        verdicts new = [] ∧ (requestsSent new).length ≤ i ∧
        ∀ r ∈ requestsSent new, r = req := by
  induction i with
  | zero =>
    intro rc
    exact ⟨[], by simp [markAndFlushLoop], rfl, by simp [requestsSent], by simp [requestsSent]⟩
  | succ i ih =>
    intro rc
    rcases h1 : env.NewOrReusedConnection rc.trace dest with _ | e
    · rcases h2 : (env.Do (rc.trace ++ [.newOrReusedConnection dest]) req).2 with _ | e
      · rcases h3 : env.CheckLogForMarker
            (rc.trace ++ [.newOrReusedConnection dest, .doRequest req]) stageID
            rc.MaxMarkerLogLines with _ | m
        · have hr : roundAnswer env rc.trace dest req stageID rc.MaxMarkerLogLines 0 =
              some none := by
            simp [roundAnswer, probeRounds, h1, h2, h3]
          obtain ⟨new, hctx, hv, hl, hreq⟩ := ih
            { rc with trace := rc.trace ++ probeRound dest req stageID rc.MaxMarkerLogLines }
          refine ⟨probeRound dest req stageID rc.MaxMarkerLogLines ++ new, ?_, ?_, ?_, ?_⟩
          · rw [markAndFlushLoop_round_nothing env dest stageID req i rc hr, hctx]
            simp [List.append_assoc]
          · simp [verdicts_append, hv]
            simp [verdicts, probeRound]
          · have h1 : (requestsSent (probeRound dest req stageID rc.MaxMarkerLogLines)).length =
                1 := rfl
            rw [requestsSent_append, List.length_append, h1]
            omega
          · intro r hr
            simp [requestsSent_append] at hr
            rcases hr with hr | hr
            · simp [requestsSent, probeRound] at hr
              exact hr
            · exact hreq r hr
        · refine ⟨probeRound dest req stageID rc.MaxMarkerLogLines, ?_, ?_, ?_, ?_⟩
          · simp [markAndFlushLoop, TestRunContext.log, h1, h2, h3, probeRound]
          · simp [verdicts, probeRound]
          · simp [requestsSent, probeRound]
          · simp [requestsSent, probeRound]
      · refine ⟨[.newOrReusedConnection dest, .doRequest req], ?_, ?_, ?_, ?_⟩
        · simp [markAndFlushLoop, TestRunContext.log, h1, h2]
        · simp [verdicts]
        · simp [requestsSent]
        · simp [requestsSent]
    · refine ⟨[.newOrReusedConnection dest], ?_, ?_, ?_, ?_⟩
      · simp [markAndFlushLoop, TestRunContext.log, h1]
      · simp [verdicts]
      · simp [requestsSent]
      · simp [requestsSent]

theorem markAndFlush_frame {χ : Type} (env : Env χ) (rc : TestRunContext)
    (dest : Destination) (stageID : String) :
    ∃ new : Trace,
      (markAndFlush env rc dest stageID).ctx = { rc with trace := rc.trace ++ new } ∧
        verdicts new = [] ∧ (requestsSent new).length ≤ rc.MaxMarkerRetries.toNat ∧
        ∀ r ∈ requestsSent new, r = markerRequest env.FTWConfig stageID :=
  markAndFlushLoop_frame env dest stageID (markerRequest env.FTWConfig stageID)
    rc.MaxMarkerRetries.toNat rc

/-- C8: in every execution `markAndFlush` sends at most n = MaxMarkerRetries probes; and
for 1 ≤ k ≤ n, if the probes of the rounds 1 to k connect and are sent and the log read
returns nil in the rounds before the k-th and the marker m in the k-th, `markAndFlush`
returns m with a nil error after exactly k rounds, one probe sent in each. -/
theorem markAndFlush_marker_found {χ : Type} (env : Env χ) (runContext : TestRunContext)
    (dest : Destination) (stageID : String) :
    (requestsSent (markAndFlush env runContext dest stageID).ctx.trace).length ≤
        (requestsSent runContext.trace).length + runContext.MaxMarkerRetries.toNat ∧
      ∀ (k : Nat) (m : Bytes), 1 ≤ k → (k : Int) ≤ runContext.MaxMarkerRetries →
        (∀ j, j + 1 < k →
          roundAnswer env runContext.trace dest (markerRequest env.FTWConfig stageID) stageID
            runContext.MaxMarkerLogLines j = some none) →
        roundAnswer env runContext.trace dest (markerRequest env.FTWConfig stageID) stageID
            runContext.MaxMarkerLogLines (k - 1) = some (some m) →
        (markAndFlush env runContext dest stageID).marker = some m ∧
          (markAndFlush env runContext dest stageID).err = none ∧
          (markAndFlush env runContext dest stageID).ctx =
            { runContext with
              trace := runContext.trace ++
                probeRounds dest (markerRequest env.FTWConfig stageID) stageID
                  runContext.MaxMarkerLogLines k } ∧
          requestsSent (markAndFlush env runContext dest stageID).ctx.trace =
            requestsSent runContext.trace ++
              List.replicate k (markerRequest env.FTWConfig stageID) := by
  constructor
  · obtain ⟨new, hctx, _, hl, _⟩ := markAndFlush_frame env runContext dest stageID
    rw [hctx]
    simp [requestsSent_append]
    exact hl
  · intro k m hk hkn hbefore hfound
    obtain ⟨k, rfl⟩ : ∃ k', k = k' + 1 := ⟨k - 1, by omega⟩
    simp only [Nat.add_sub_cancel] at hfound
    obtain ⟨i, hi⟩ : ∃ i, runContext.MaxMarkerRetries.toNat = (i + 1) + k :=
      ⟨runContext.MaxMarkerRetries.toNat - (k + 1), by omega⟩
    have hskip := markAndFlushLoop_rounds_nothing env dest stageID
      (markerRequest env.FTWConfig stageID) k (i + 1) runContext
      (fun l hl => hbefore l (by omega))
    have hlast : roundAnswer env
        (runContext.trace ++ probeRounds dest (markerRequest env.FTWConfig stageID) stageID
          runContext.MaxMarkerLogLines k) dest (markerRequest env.FTWConfig stageID) stageID
        runContext.MaxMarkerLogLines 0 = some (some m) := by
      simpa [roundAnswer, probeRounds] using hfound
    have hres : markAndFlush env runContext dest stageID =
        { ctx := { runContext with
            trace := runContext.trace ++
              probeRounds dest (markerRequest env.FTWConfig stageID) stageID
                runContext.MaxMarkerLogLines (k + 1) },
          marker := some m, err := none } := by
      simp only [markAndFlush, hi, hskip]
      rw [markAndFlushLoop_round_found env dest stageID (markerRequest env.FTWConfig stageID) i
        _ m hlast]
      simp [probeRounds_succ_end, List.append_assoc]
    rw [hres]
    refine ⟨rfl, rfl, rfl, ?_⟩
    simp [requestsSent_append, requestsSent_probeRounds]

/-- An instance of C8: three retries, the marker showing at the second read of the log. -/
theorem markAndFlush_marker_found_witness :
    (markAndFlush (scriptedEnv lateMarkerScript) sampleContext sampleDest "stage-1").marker =
        some [115, 116, 97, 103, 101, 45, 49] ∧
      requestsSent
          (markAndFlush (scriptedEnv lateMarkerScript) sampleContext sampleDest
            "stage-1").ctx.trace =
        requestsSent sampleContext.trace ++
          List.replicate 2 (markerRequest (scriptedEnv lateMarkerScript).FTWConfig "stage-1") :=
  have h := (markAndFlush_marker_found (scriptedEnv lateMarkerScript) sampleContext
    sampleDest "stage-1").2 2 [115, 116, 97, 103, 101, 45, 49] (by decide) (by decide)
    (by
      intro j hj
      obtain rfl : j = 0 := by omega
      decide)
    (by decide)
  ⟨h.1, h.2.2.2⟩

/-! ### The verdict -/

/-- C10: without a transport error `checkResult` returns Success exactly when the response
is there and its status is among the expected ones, or the response is there and its body
matches the pattern, or the log assertion holds, or the no-log assertion holds, each asked
on the check object as `checkResult` consults it; otherwise it returns Failed.  So a
response that meets neither assertion, with no log evidence, gives Failed, and a log
assertion that holds gives Success whatever the status. -/
theorem checkResult_without_error {χ : Type} (env : Env χ) (tr : Trace) (c : χ)
    (response : Option Response) :
    (checkResult env tr c response none = .Success ↔
        (∃ r, response = some r ∧ env.AssertStatus (checkConsulted env c) r.StatusCode = true) ∨
        (∃ r, response = some r ∧
          env.AssertResponseContains (checkConsulted env c) r.Body = true) ∨
        env.AssertLogContains tr (checkConsulted env c) = true ∨
        env.AssertNoLogContains tr (checkConsulted env c) = true) ∧
      (checkResult env tr c response none ≠ .Success →
        checkResult env tr c response none = .Failed) ∧
      (∀ r, response = some r →
        env.AssertStatus (checkConsulted env c) r.StatusCode = false →
        env.AssertResponseContains (checkConsulted env c) r.Body = false →
        env.AssertLogContains tr (checkConsulted env c) = false →
        env.AssertNoLogContains tr (checkConsulted env c) = false →
        checkResult env tr c response none = .Failed) ∧
      (env.AssertLogContains tr (checkConsulted env c) = true →
        checkResult env tr c response none = .Success) := by
  have hunfold : checkResult env tr c response none =
      (match response with
        | some r =>
          if env.AssertStatus (checkConsulted env c) r.StatusCode then TestResult.Success
          else if env.AssertResponseContains (checkConsulted env c) r.Body then
            TestResult.Success
          else if env.AssertLogContains tr (checkConsulted env c) then TestResult.Success
          else if env.AssertNoLogContains tr (checkConsulted env c) then TestResult.Success
          else TestResult.Failed
        | none =>
          if env.AssertLogContains tr (checkConsulted env c) then TestResult.Success
          else if env.AssertNoLogContains tr (checkConsulted env c) then TestResult.Success
          else TestResult.Failed) := by
    simp [checkResult, checkConsulted]
  rw [hunfold]
  cases response with
  | none =>
    cases h3 : env.AssertLogContains tr (checkConsulted env c) <;>
      cases h4 : env.AssertNoLogContains tr (checkConsulted env c) <;> simp
  | some r =>
    cases h1 : env.AssertStatus (checkConsulted env c) r.StatusCode <;>
      cases h2 : env.AssertResponseContains (checkConsulted env c) r.Body <;>
      cases h3 : env.AssertLogContains tr (checkConsulted env c) <;>
      cases h4 : env.AssertNoLogContains tr (checkConsulted env c) <;> simp [h1, h2]

/-- Two instances of C10: a 403 against an expected 200 with no log evidence is Failed; a
403 against an expected 200 with the log pattern found is Success. -/
theorem checkResult_without_error_witness :
    checkResult (scriptedEnv unloggedScript) [] (checkExpecting unloggedScript expect200)
        (some response403) none = .Failed ∧
      checkResult (scriptedEnv blockedScript) [] (checkExpecting blockedScript expectLog)
        (some response403) none = .Success :=
  ⟨(checkResult_without_error (scriptedEnv unloggedScript) []
      (checkExpecting unloggedScript expect200) (some response403)).2.2.1 response403 rfl
      (by decide) (by decide) (by decide) (by decide),
    (checkResult_without_error (scriptedEnv blockedScript) []
      (checkExpecting blockedScript expectLog) (some response403)).2.2.2 (by decide)⟩

/-! ### What a stage leaves unchanged -/

theorem sameSettings_refl (a : TestRunContext) : sameSettings a a :=
  ⟨rfl, rfl, rfl, rfl, rfl, rfl, rfl⟩

theorem sameSettings_trans {a b c : TestRunContext} (h1 : sameSettings a b)
    (h2 : sameSettings b c) : sameSettings a c := by
  obtain ⟨a1, a2, a3, a4, a5, a6, a7⟩ := h1
  obtain ⟨b1, b2, b3, b4, b5, b6, b7⟩ := h2
  exact ⟨a1.trans b1, a2.trans b2, a3.trans b3, a4.trans b4, a5.trans b5, a6.trans b6,
    a7.trans b7⟩

theorem sameSettings_log (rc : TestRunContext) (e : Event) : sameSettings (rc.log e) rc :=
  ⟨rfl, rfl, rfl, rfl, rfl, rfl, rfl⟩

theorem sameSettings_addResultToStats (rc : TestRunContext) (r : TestResult) (t : String)
    (d : Duration) : sameSettings (rc.addResultToStats r t d) rc :=
  ⟨rfl, rfl, rfl, rfl, rfl, rfl, rfl⟩

theorem sameSettings_displayResult (rc : TestRunContext) (r : TestResult) (a b : Duration) :
    sameSettings (displayResult rc r a b) rc := by
  cases r <;> simp only [displayResult] <;>
    first
      | exact sameSettings_refl _
      | exact sameSettings_log _ _
      | (split
         · exact sameSettings_log _ _
         · exact sameSettings_refl _)

theorem sameSettings_markAndFlush {χ : Type} (env : Env χ) (rc : TestRunContext)
    (dest : Destination) (stageID : String) :
    sameSettings (markAndFlush env rc dest stageID).ctx rc := by
  obtain ⟨new, hctx, _⟩ := markAndFlush_frame env rc dest stageID
  rw [hctx]
  exact ⟨rfl, rfl, rfl, rfl, rfl, rfl, rfl⟩

theorem markAndFlush_verdicts {χ : Type} (env : Env χ) (rc : TestRunContext)
    (dest : Destination) (stageID : String) :
    verdicts (markAndFlush env rc dest stageID).ctx.trace = verdicts rc.trace := by
  obtain ⟨new, hctx, hv, _⟩ := markAndFlush_frame env rc dest stageID
  rw [hctx]
  simp [verdicts_append, hv]

theorem markAndFlush_Stats {χ : Type} (env : Env χ) (rc : TestRunContext)
    (dest : Destination) (stageID : String) :
    (markAndFlush env rc dest stageID).ctx.Stats = rc.Stats := by
  obtain ⟨new, hctx, _⟩ := markAndFlush_frame env rc dest stageID
  rw [hctx]

theorem markAndFlush_trace {χ : Type} (env : Env χ) (rc : TestRunContext)
    (dest : Destination) (stageID : String) :
    ∃ new, (markAndFlush env rc dest stageID).ctx.trace = rc.trace ++ new := by
  obtain ⟨new, hctx, _⟩ := markAndFlush_frame env rc dest stageID
  exact ⟨new, by rw [hctx]⟩

/-! ### The steps of a stage -/

theorem RunStage.finish_err {χ : Type} (env : Env χ) (rc : TestRunContext) (c : χ)
    (tc : Test) (out : Output) (t0 : Duration) (resp : Option Response)
    (err : Option GoError) : (RunStage.finish env rc c tc out t0 resp err).2 = none := rfl

theorem RunStage.finish_verdicts {χ : Type} (env : Env χ) (rc : TestRunContext) (c : χ)
    (tc : Test) (out : Output) (t0 : Duration) (resp : Option Response)
    (err : Option GoError) :
    verdicts (RunStage.finish env rc c tc out t0 resp err).1.trace =
      verdicts rc.trace ++
        [checkResult env (rc.trace ++ [.setExpectTestOutput out])
          (env.SetExpectTestOutput c out) resp err] := by
  simp [RunStage.finish, TestRunContext.log, TestRunContext.addResultToStats,
    displayResult_verdicts, verdicts_append]
  simp [verdicts]

theorem RunStage.finish_Result {χ : Type} (env : Env χ) (rc : TestRunContext) (c : χ)
    (tc : Test) (out : Output) (t0 : Duration) (resp : Option Response)
    (err : Option GoError) :
    (RunStage.finish env rc c tc out t0 resp err).1.Result =
      checkResult env (rc.trace ++ [.setExpectTestOutput out])
        (env.SetExpectTestOutput c out) resp err := by
  simp only [RunStage.finish, TestRunContext.log, TestRunContext.addResultToStats]
  generalize checkResult env (rc.trace ++ [.setExpectTestOutput out])
    (env.SetExpectTestOutput c out) resp err = v
  cases v <;> simp only [displayResult, TestRunContext.log] <;> (try split) <;> rfl

/-- The end of a stage from the search for the end marker on, in one formula. -/
theorem RunStage.endMarker_eq {χ : Type} (env : Env χ) (rc : TestRunContext) (c : χ)
    (tc : Test) (out : Output) (t0 : Duration) (dest : Destination) (stageID : String)
    (resp : Option Response) (err : Option GoError) :
    RunStage.endMarker env rc c tc out t0 dest stageID resp err =
      if notRunningInCloudMode env c = true ∧ out.ExpectError = false ∧
          (markAndFlush env rc dest stageID).err.isSome = true then
        ((markAndFlush env rc dest stageID).ctx,
          (markAndFlush env rc dest stageID).err.map (.wrap "failed to find end marker: %w"))
      else
        RunStage.finish env
          (if notRunningInCloudMode env c = true then
            (markAndFlush env rc dest stageID).ctx.log
              (.setEndMarker (markAndFlush env rc dest stageID).marker)
           else rc)
          (if notRunningInCloudMode env c = true then
            env.SetEndMarker c (markAndFlush env rc dest stageID).marker
           else c)
          tc out t0 resp err := by
  unfold RunStage.endMarker
  cases hC : notRunningInCloudMode env c <;> cases hE : out.ExpectError <;>
    cases hm : (markAndFlush env rc dest stageID).err <;> simp [hm]

/-- The middle of a stage from the connection on, in one formula. -/
theorem RunStage.send_eq {χ : Type} (env : Env χ) (rc : TestRunContext) (c : χ)
    (tc : Test) (testRequest : Input) (out : Output) (t0 : Duration) (dest : Destination)
    (stageID : String) :
    RunStage.send env rc c tc testRequest out t0 dest stageID =
      if out.ExpectError = false ∧ (env.NewConnection rc.trace dest).isSome = true then
        (rc.log (.newConnection dest),
          (env.NewConnection rc.trace dest).map (.wrap "can't connect to destination %+v: %w"))
      else if out.ExpectError = false ∧
          (env.Do ((rc.log (.newConnection dest)).log .startTrackingTime).trace
            (getRequestFromTest env testRequest)).2.isSome = true then
        ((((rc.log (.newConnection dest)).log .startTrackingTime).log
            (.doRequest (getRequestFromTest env testRequest))).log .stopTrackingTime,
          (env.Do ((rc.log (.newConnection dest)).log .startTrackingTime).trace
            (getRequestFromTest env testRequest)).2.map
            (.wrap "failed sending request to destination %+v: %w"))
      else
        RunStage.endMarker env
          ((((rc.log (.newConnection dest)).log .startTrackingTime).log
            (.doRequest (getRequestFromTest env testRequest))).log .stopTrackingTime)
          c tc out t0 dest stageID
          (env.Do ((rc.log (.newConnection dest)).log .startTrackingTime).trace
            (getRequestFromTest env testRequest)).1
          (env.Do ((rc.log (.newConnection dest)).log .startTrackingTime).trace
            (getRequestFromTest env testRequest)).2 := by
  unfold RunStage.send
  cases hE : out.ExpectError <;> cases hn : env.NewConnection rc.trace dest <;>
    cases hd : (env.Do ((rc.log (.newConnection dest)).log .startTrackingTime).trace
      (getRequestFromTest env testRequest)).2 <;> simp [hd]

/-- A stage that passes the sanity check and is not overridden, in one formula: the four
places where it can end with an error, in order, and the resolution of the verdict. -/
theorem RunStage_eq {χ : Type} (env : Env χ) (rc : TestRunContext) (c : χ) (tc : Test)
    (stage : Stage) (hsane : checkTestSanity stage.Input = false)
    (hover : overriddenTestResult env c tc.TestTitle = .Failed) :
    RunStage env rc c tc stage =
      if notRunningInCloudMode env c = true ∧ stage.Output.ExpectError = false ∧
          (startMarkerSearch env rc stage).err.isSome = true then
        ((startMarkerSearch env rc stage).ctx,
          (startMarkerSearch env rc stage).err.map (.wrap "failed to find start marker: %w"))
      else if stage.Output.ExpectError = false ∧
          (connectError env rc c stage).isSome = true then
        ((contextAtConnect env rc c stage).log (.newConnection (stageDest env.FTWConfig stage)),
          (connectError env rc c stage).map (.wrap "can't connect to destination %+v: %w"))
      else if stage.Output.ExpectError = false ∧
          (sendAnswer env rc c stage).2.isSome = true then
        (contextAfterSend env rc c stage,
          (sendAnswer env rc c stage).2.map
            (.wrap "failed sending request to destination %+v: %w"))
      else if notRunningInCloudMode env (checkAtSend env rc c stage) = true ∧
          stage.Output.ExpectError = false ∧
          (endMarkerSearch env rc c stage).err.isSome = true then
        ((endMarkerSearch env rc c stage).ctx,
          (endMarkerSearch env rc c stage).err.map (.wrap "failed to find end marker: %w"))
      else
        RunStage.finish env (contextAtFinish env rc c stage) (checkAtFinish env rc c stage) tc
          stage.Output (env.Now rc.trace) (sendAnswer env rc c stage).1
          (sendAnswer env rc c stage).2 := by
  have h1 : checkTestSanity (applyInputOverride env.FTWConfig stage.Input).1 = false := by
    rw [checkTestSanity_applyInputOverride]
    exact hsane
  unfold RunStage
  simp only [h1, hover, RunStage.send_eq, RunStage.endMarker_eq]
  simp only [contextAtFinish, checkAtFinish, endMarkerSearch, contextAfterSend, sendAnswer,
    connectError, checkAtSend, contextAtConnect, startMarkerSearch, stageRequest, stageDest]
  cases hC : notRunningInCloudMode env c <;> cases hE : stage.Output.ExpectError <;>
    cases hm : (markAndFlush env rc
      { DestAddr := (applyInputOverride env.FTWConfig stage.Input).1.GetDestAddr,
        Port := (applyInputOverride env.FTWConfig stage.Input).1.GetPort,
        Protocol := (applyInputOverride env.FTWConfig stage.Input).1.GetProtocol }
      (env.NewString rc.trace)).err <;> simp [hm, hC]

theorem markAndFlushLoop_events {χ : Type} (env : Env χ) (dest : Destination)
    (stageID : String) (req : Request) (i : Nat) :
    ∀ rc : TestRunContext, ∃ new : Trace,
      (markAndFlushLoop env dest stageID req i rc).ctx.trace = rc.trace ++ new ∧
        ∀ ev ∈ new, ev ∈ probeRound dest req stageID rc.MaxMarkerLogLines := by
  induction i with
  | zero =>
    intro rc
    exact ⟨[], by simp [markAndFlushLoop], by simp⟩
  | succ i ih =>
    intro rc
    rcases h1 : env.NewOrReusedConnection rc.trace dest with _ | e
    · rcases h2 : (env.Do (rc.trace ++ [.newOrReusedConnection dest]) req).2 with _ | e
      · rcases h3 : env.CheckLogForMarker
            (rc.trace ++ [.newOrReusedConnection dest, .doRequest req]) stageID
            rc.MaxMarkerLogLines with _ | m
        · have hr : roundAnswer env rc.trace dest req stageID rc.MaxMarkerLogLines 0 =
              some none := by
            simp [roundAnswer, probeRounds, h1, h2, h3]
          obtain ⟨new, hctx, hev⟩ := ih
            { rc with trace := rc.trace ++ probeRound dest req stageID rc.MaxMarkerLogLines }
          refine ⟨probeRound dest req stageID rc.MaxMarkerLogLines ++ new, ?_, ?_⟩
          · rw [markAndFlushLoop_round_nothing env dest stageID req i rc hr, hctx]
            simp [List.append_assoc]
          · intro ev hmem
            rcases List.mem_append.mp hmem with hmem | hmem
            · exact hmem
            · exact hev ev hmem
        · refine ⟨probeRound dest req stageID rc.MaxMarkerLogLines, ?_, fun ev hmem => hmem⟩
          simp [markAndFlushLoop, TestRunContext.log, h1, h2, h3, probeRound]
      · refine ⟨[.newOrReusedConnection dest, .doRequest req], ?_, ?_⟩
        · simp [markAndFlushLoop, TestRunContext.log, h1, h2]
        · intro ev hmem
          simp [probeRound] at hmem ⊢
          rcases hmem with hmem | hmem
          · exact Or.inl hmem
          · exact Or.inr (Or.inl hmem)
    · refine ⟨[.newOrReusedConnection dest], ?_, ?_⟩
      · simp [markAndFlushLoop, TestRunContext.log, h1]
      · intro ev hmem
        simp [probeRound] at hmem ⊢
        exact Or.inl hmem

/-- All that a marker search adds to the history are calls of its rounds: a probe
connecting, the probe sent, the log read. -/
theorem markAndFlush_events {χ : Type} (env : Env χ) (rc : TestRunContext)
    (dest : Destination) (stageID : String) :
    ∃ new : Trace,
      (markAndFlush env rc dest stageID).ctx.trace = rc.trace ++ new ∧
        ∀ ev ∈ new,
          ev ∈ probeRound dest (markerRequest env.FTWConfig stageID) stageID
            rc.MaxMarkerLogLines :=
  markAndFlushLoop_events env dest stageID (markerRequest env.FTWConfig stageID)
    rc.MaxMarkerRetries.toNat rc

theorem contextAtConnect_verdicts {χ : Type} (env : Env χ) (rc : TestRunContext) (c : χ)
    (stage : Stage) : verdicts (contextAtConnect env rc c stage).trace = verdicts rc.trace := by
  unfold contextAtConnect
  split
  · simp [TestRunContext.log, verdicts_append, startMarkerSearch, markAndFlush_verdicts]
    simp [verdicts]
  · rfl

theorem contextAtConnect_Stats {χ : Type} (env : Env χ) (rc : TestRunContext) (c : χ)
    (stage : Stage) : (contextAtConnect env rc c stage).Stats = rc.Stats := by
  unfold contextAtConnect
  split
  · simp [TestRunContext.log, startMarkerSearch, markAndFlush_Stats]
  · rfl

theorem contextAtConnect_sameSettings {χ : Type} (env : Env χ) (rc : TestRunContext) (c : χ)
    (stage : Stage) : sameSettings (contextAtConnect env rc c stage) rc := by
  unfold contextAtConnect
  split
  · exact sameSettings_trans (sameSettings_log _ _) (sameSettings_markAndFlush _ _ _ _)
  · exact sameSettings_refl _

theorem contextAfterSend_verdicts {χ : Type} (env : Env χ) (rc : TestRunContext) (c : χ)
    (stage : Stage) : verdicts (contextAfterSend env rc c stage).trace = verdicts rc.trace := by
  simp [contextAfterSend, TestRunContext.log, verdicts_append, contextAtConnect_verdicts]
  simp [verdicts]

theorem contextAfterSend_Stats {χ : Type} (env : Env χ) (rc : TestRunContext) (c : χ)
    (stage : Stage) : (contextAfterSend env rc c stage).Stats = rc.Stats := by
  simp [contextAfterSend, TestRunContext.log, contextAtConnect_Stats]

theorem contextAfterSend_sameSettings {χ : Type} (env : Env χ) (rc : TestRunContext) (c : χ)
    (stage : Stage) : sameSettings (contextAfterSend env rc c stage) rc := by
  unfold contextAfterSend
  exact sameSettings_trans (sameSettings_log _ _) (sameSettings_trans (sameSettings_log _ _)
    (sameSettings_trans (sameSettings_log _ _) (sameSettings_trans (sameSettings_log _ _)
      (contextAtConnect_sameSettings env rc c stage))))

theorem contextAtFinish_verdicts {χ : Type} (env : Env χ) (rc : TestRunContext) (c : χ)
    (stage : Stage) : verdicts (contextAtFinish env rc c stage).trace = verdicts rc.trace := by
  unfold contextAtFinish
  split
  · simp [TestRunContext.log, verdicts_append, endMarkerSearch, markAndFlush_verdicts,
      contextAfterSend_verdicts]
    simp [verdicts]
  · exact contextAfterSend_verdicts env rc c stage

theorem contextAtFinish_trace {χ : Type} (env : Env χ) (rc : TestRunContext) (c : χ)
    (stage : Stage) :
    ∃ post, (contextAtFinish env rc c stage).trace =
      (contextAfterSend env rc c stage).trace ++ post := by
  unfold contextAtFinish
  split
  · obtain ⟨new, hnew⟩ := markAndFlush_trace env (contextAfterSend env rc c stage)
      (stageDest env.FTWConfig stage) (env.NewString rc.trace)
    refine ⟨new ++ [.setEndMarker (endMarkerSearch env rc c stage).marker], ?_⟩
    simp [TestRunContext.log, endMarkerSearch, hnew, List.append_assoc]
  · exact ⟨[], by simp⟩

theorem RunStage.finish_trace {χ : Type} (env : Env χ) (rc : TestRunContext) (c : χ)
    (tc : Test) (out : Output) (t0 : Duration) (resp : Option Response)
    (err : Option GoError) :
    ∃ post, (RunStage.finish env rc c tc out t0 resp err).1.trace = rc.trace ++ post := by
  simp only [RunStage.finish, TestRunContext.log, TestRunContext.addResultToStats]
  generalize checkResult env (rc.trace ++ [.setExpectTestOutput out])
    (env.SetExpectTestOutput c out) resp err = v
  cases v <;> simp only [displayResult, TestRunContext.log] <;> (try split) <;>
    simp only [List.append_assoc] <;> exact ⟨_, rfl⟩

/-! ### Overridden tests -/

/-- C2, as stated, fails: a stage whose title is marked Ignore and whose input has both
body data and raw bytes ends with `errBadTestRequest`, and no verdict is recorded. -/
theorem RunStage_overridden_ambiguous :
    (scriptedEnv ignoreScript).ForcedIgnore (freshCheck ignoreScript)
        (sampleCase []).TestTitle = true ∧
      (RunStage (scriptedEnv ignoreScript) sampleContext (freshCheck ignoreScript)
        (sampleCase []) { Input := ambiguousInput, Output := expect200 }).2 =
          some errBadTestRequest ∧
      verdicts (RunStage (scriptedEnv ignoreScript) sampleContext (freshCheck ignoreScript)
        (sampleCase []) { Input := ambiguousInput, Output := expect200 }).1.trace = [] := by
  decide

/-- C2, amended: for a stage whose input passes the sanity check and whose title is marked
in the override table, `RunStage` returns nil and records exactly the forced verdict
(Ignored before ForceFail before ForcePass), never Success or Failed; it makes no
connection, sends no request and reads no log. -/
theorem RunStage_overridden {χ : Type} (env : Env χ) (runContext : TestRunContext)
    (ftwCheck : χ) (testCase : Test) (stage : Stage)
    (hsane : checkTestSanity stage.Input = false)
    (hforced : env.ForcedIgnore ftwCheck testCase.TestTitle = true ∨
      env.ForcedFail ftwCheck testCase.TestTitle = true ∨
      env.ForcedPass ftwCheck testCase.TestTitle = true) :
    (RunStage env runContext ftwCheck testCase stage).2 = none ∧
      verdicts (RunStage env runContext ftwCheck testCase stage).1.trace =
        verdicts runContext.trace ++
          [overriddenTestResult env ftwCheck testCase.TestTitle] ∧
      (RunStage env runContext ftwCheck testCase stage).1.Stats =
        runContext.Stats.addResultToStats
          (overriddenTestResult env ftwCheck testCase.TestTitle) ∧
      contacts (RunStage env runContext ftwCheck testCase stage).1.trace =
        contacts runContext.trace ∧
      overriddenTestResult env ftwCheck testCase.TestTitle =
        (if env.ForcedIgnore ftwCheck testCase.TestTitle = true then TestResult.Ignored
         else if env.ForcedFail ftwCheck testCase.TestTitle = true then TestResult.ForceFail
         else TestResult.ForcePass) ∧
      overriddenTestResult env ftwCheck testCase.TestTitle ≠ .Success ∧
      overriddenTestResult env ftwCheck testCase.TestTitle ≠ .Failed := by
  have h1 : checkTestSanity (applyInputOverride env.FTWConfig stage.Input).1 = false := by
    rw [checkTestSanity_applyInputOverride]
    exact hsane
  have hv : overriddenTestResult env ftwCheck testCase.TestTitle =
      (if env.ForcedIgnore ftwCheck testCase.TestTitle = true then TestResult.Ignored
       else if env.ForcedFail ftwCheck testCase.TestTitle = true then TestResult.ForceFail
       else TestResult.ForcePass) := by
    unfold overriddenTestResult
    cases hI : env.ForcedIgnore ftwCheck testCase.TestTitle <;>
      cases hF : env.ForcedFail ftwCheck testCase.TestTitle <;>
      cases hP : env.ForcedPass ftwCheck testCase.TestTitle <;> simp_all
  have hnS : overriddenTestResult env ftwCheck testCase.TestTitle ≠ .Success := by
    rw [hv]
    split
    · simp
    · split <;> simp
  have hnF : overriddenTestResult env ftwCheck testCase.TestTitle ≠ .Failed := by
    rw [hv]
    split
    · simp
    · split <;> simp
  have hrun : RunStage env runContext ftwCheck testCase stage =
      (displayResult
        (runContext.addResultToStats (overriddenTestResult env ftwCheck testCase.TestTitle)
          testCase.TestTitle 0)
        (overriddenTestResult env ftwCheck testCase.TestTitle) 0 0, none) := by
    unfold RunStage
    simp [h1, hnF]
  rw [hrun]
  refine ⟨rfl, ?_, ?_, ?_, hv, hnS, hnF⟩
  · simp [displayResult_verdicts, TestRunContext.addResultToStats, verdicts_append]
    simp [verdicts]
  · simp [displayResult_Stats, TestRunContext.addResultToStats]
  · simp [displayResult_contacts, TestRunContext.addResultToStats, contacts_append]
    simp [contacts, Event.isContact]

/-- An instance of C2 as amended: the title 920100-1 marked Ignore, with a plain input. -/
theorem RunStage_overridden_witness :
    (RunStage (scriptedEnv ignoreScript) sampleContext (freshCheck ignoreScript)
        (sampleCase []) (plainStage expect200)).2 = none ∧
      verdicts (RunStage (scriptedEnv ignoreScript) sampleContext (freshCheck ignoreScript)
        (sampleCase []) (plainStage expect200)).1.trace =
        verdicts sampleContext.trace ++
          [overriddenTestResult (scriptedEnv ignoreScript) (freshCheck ignoreScript)
            (sampleCase []).TestTitle] :=
  have h := RunStage_overridden (scriptedEnv ignoreScript) sampleContext
    (freshCheck ignoreScript) (sampleCase []) (plainStage expect200) (by decide)
    (Or.inl (by decide))
  ⟨h.1, h.2.1⟩

/-! ### Expected errors -/

theorem RunStage_expecting_error_eq {χ : Type} (env : Env χ) (rc : TestRunContext) (c : χ)
    (tc : Test) (stage : Stage) (hsane : checkTestSanity stage.Input = false)
    (hover : overriddenTestResult env c tc.TestTitle = .Failed)
    (hexp : stage.Output.ExpectError = true) :
    RunStage env rc c tc stage =
      RunStage.finish env (contextAtFinish env rc c stage) (checkAtFinish env rc c stage) tc
        stage.Output (env.Now rc.trace) (sendAnswer env rc c stage).1
        (sendAnswer env rc c stage).2 := by
  rw [RunStage_eq env rc c tc stage hsane hover]
  simp [hexp]

theorem scriptedEnv_contract (s : Script) : ExpectErrorContract (scriptedEnv s) :=
  fun _ _ _ => rfl

/-- C6: for a stage that passes the sanity check, is not overridden and expects an error,
`RunStage` returns nil whatever the marker searches, the connection and the send answer;
and when the send of the test request returns a transport error, the verdict recorded is
Success, given that the check object counts a transport error as expected when the
expectation it was handed declares `expectError`. -/
theorem RunStage_expected_error {χ : Type} (env : Env χ) (runContext : TestRunContext)
    (ftwCheck : χ) (testCase : Test) (stage : Stage)
    (hsane : checkTestSanity stage.Input = false)
    (hover : overriddenTestResult env ftwCheck testCase.TestTitle = .Failed)
    (hexp : stage.Output.ExpectError = true) :
    (RunStage env runContext ftwCheck testCase stage).2 = none ∧
      ∀ e, ExpectErrorContract env →
        (sendAnswer env runContext ftwCheck stage).2 = some e →
        verdicts (RunStage env runContext ftwCheck testCase stage).1.trace =
            verdicts runContext.trace ++ [.Success] ∧
          (RunStage env runContext ftwCheck testCase stage).1.Result = .Success := by
  rw [RunStage_expecting_error_eq env runContext ftwCheck testCase stage hsane hover hexp]
  refine ⟨rfl, ?_⟩
  intro e hcontract hsend
  have hres : ∀ tr, checkResult env tr
      (env.SetExpectTestOutput (checkAtFinish env runContext ftwCheck stage) stage.Output)
      (sendAnswer env runContext ftwCheck stage).1 (some e) = .Success := by
    intro tr
    simp [checkResult, hcontract _ _ _, hexp]
  rw [RunStage.finish_verdicts, RunStage.finish_Result, hsend, hres, contextAtFinish_verdicts]
  exact ⟨rfl, rfl⟩

/-- An instance of C6: the destination refuses the test request of a stage that expects an
error. -/
theorem RunStage_expected_error_witness :
    (RunStage (scriptedEnv refusedScript) sampleContext (freshCheck refusedScript)
        (sampleCase []) (plainStage expectFailure)).2 = none ∧
      verdicts (RunStage (scriptedEnv refusedScript) sampleContext (freshCheck refusedScript)
        (sampleCase []) (plainStage expectFailure)).1.trace =
        verdicts sampleContext.trace ++ [.Success] :=
  have h := RunStage_expected_error (scriptedEnv refusedScript) sampleContext
    (freshCheck refusedScript) (sampleCase []) (plainStage expectFailure) (by decide)
    (by decide) (by decide)
  ⟨h.1, (h.2 (.msg "connection refused") (scriptedEnv_contract refusedScript)
    (by decide)).1⟩

/-! ### Markers that are not found -/

/-- C9: for a stage that passes the sanity check and is not overridden.  Outside cloud mode
and without `expectError`, a failed search for the start marker ends `RunStage` with an
error right after the search: only calls of probe rounds were made, so the test request
was not sent, and no verdict is recorded.  Likewise a failed search for the end marker ends
`RunStage` with an error and no verdict.  With `expectError` the stage goes on whatever the
searches answer: the test request is sent, `RunStage` returns nil and one verdict is
recorded. -/
theorem RunStage_marker_not_found {χ : Type} (env : Env χ) (runContext : TestRunContext)
    (ftwCheck : χ) (testCase : Test) (stage : Stage)
    (hsane : checkTestSanity stage.Input = false)
    (hover : overriddenTestResult env ftwCheck testCase.TestTitle = .Failed) :
    (∀ e, notRunningInCloudMode env ftwCheck = true → stage.Output.ExpectError = false →
        (startMarkerSearch env runContext stage).err = some e →
        RunStage env runContext ftwCheck testCase stage =
            ((startMarkerSearch env runContext stage).ctx,
              some (.wrap "failed to find start marker: %w" e)) ∧
          verdicts (RunStage env runContext ftwCheck testCase stage).1.trace =
            verdicts runContext.trace ∧
          ∃ new, (RunStage env runContext ftwCheck testCase stage).1.trace =
              runContext.trace ++ new ∧
            ∀ ev ∈ new,
              ev ∈ probeRound (stageDest env.FTWConfig stage)
                (markerRequest env.FTWConfig (env.NewString runContext.trace))
                (env.NewString runContext.trace) runContext.MaxMarkerLogLines) ∧
      (∀ e, stage.Output.ExpectError = false →
        (notRunningInCloudMode env ftwCheck = true →
          (startMarkerSearch env runContext stage).err = none) →
        connectError env runContext ftwCheck stage = none →
        (sendAnswer env runContext ftwCheck stage).2 = none →
        notRunningInCloudMode env (checkAtSend env runContext ftwCheck stage) = true →
        (endMarkerSearch env runContext ftwCheck stage).err = some e →
        RunStage env runContext ftwCheck testCase stage =
            ((endMarkerSearch env runContext ftwCheck stage).ctx,
              some (.wrap "failed to find end marker: %w" e)) ∧
          verdicts (RunStage env runContext ftwCheck testCase stage).1.trace =
            verdicts runContext.trace) ∧
      (stage.Output.ExpectError = true →
        (RunStage env runContext ftwCheck testCase stage).2 = none ∧
          (∃ post, (RunStage env runContext ftwCheck testCase stage).1.trace =
            (contextAfterSend env runContext ftwCheck stage).trace ++ post) ∧
          ∃ v, verdicts (RunStage env runContext ftwCheck testCase stage).1.trace =
            verdicts runContext.trace ++ [v]) := by
  refine ⟨?_, ?_, ?_⟩
  · intro e hcloud hexp herr
    have hrun : RunStage env runContext ftwCheck testCase stage =
        ((startMarkerSearch env runContext stage).ctx,
          some (.wrap "failed to find start marker: %w" e)) := by
      rw [RunStage_eq env runContext ftwCheck testCase stage hsane hover]
      simp [hcloud, hexp, herr]
    rw [hrun]
    refine ⟨rfl, ?_, ?_⟩
    · exact markAndFlush_verdicts env runContext _ _
    · exact markAndFlush_events env runContext _ _
  · intro e hexp hstart hconn hsend hcloud herr
    have hrun : RunStage env runContext ftwCheck testCase stage =
        ((endMarkerSearch env runContext ftwCheck stage).ctx,
          some (.wrap "failed to find end marker: %w" e)) := by
      rw [RunStage_eq env runContext ftwCheck testCase stage hsane hover]
      by_cases hc : notRunningInCloudMode env ftwCheck = true
      · simp [hexp, hstart hc, hconn, hsend, hcloud, herr]
      · simp [hexp, hc, hconn, hsend, hcloud, herr]
    rw [hrun]
    refine ⟨rfl, ?_⟩
    show verdicts (markAndFlush env _ _ _).ctx.trace = _
    rw [markAndFlush_verdicts, contextAfterSend_verdicts]
  · intro hexp
    rw [RunStage_expecting_error_eq env runContext ftwCheck testCase stage hsane hover hexp]
    refine ⟨rfl, ?_, ?_⟩
    · obtain ⟨p1, h1⟩ := RunStage.finish_trace env
        (contextAtFinish env runContext ftwCheck stage)
        (checkAtFinish env runContext ftwCheck stage) testCase stage.Output
        (env.Now runContext.trace) (sendAnswer env runContext ftwCheck stage).1
        (sendAnswer env runContext ftwCheck stage).2
      obtain ⟨p2, h2⟩ := contextAtFinish_trace env runContext ftwCheck stage
      exact ⟨p2 ++ p1, by rw [h1, h2, List.append_assoc]⟩
    · exact ⟨_, by rw [RunStage.finish_verdicts, contextAtFinish_verdicts]⟩

/-- Three instances of C9: the log never shows the marker and the stage expects a status;
the log loses the marker after the first read; the log never shows the marker and the
stage expects an error. -/
theorem RunStage_marker_not_found_witness :
    (RunStage (scriptedEnv silentLogScript) sampleContext (freshCheck silentLogScript)
        (sampleCase []) (plainStage expect200)).2 =
        some (.wrap "failed to find start marker: %w"
          (.msg "can't find log marker. Am I reading the correct log? Log file: %s")) ∧
      (RunStage (scriptedEnv lostMarkerScript) sampleContext (freshCheck lostMarkerScript)
        (sampleCase []) (plainStage expect200)).2 =
        some (.wrap "failed to find end marker: %w"
          (.msg "can't find log marker. Am I reading the correct log? Log file: %s")) ∧
      (RunStage (scriptedEnv silentLogScript) sampleContext (freshCheck silentLogScript)
        (sampleCase []) (plainStage expectFailure)).2 = none :=
  ⟨congrArg Prod.snd
      ((RunStage_marker_not_found (scriptedEnv silentLogScript) sampleContext
        (freshCheck silentLogScript) (sampleCase []) (plainStage expect200) (by decide)
        (by decide)).1 _ (by decide) (by decide) (by decide)).1,
    congrArg Prod.snd
      ((RunStage_marker_not_found (scriptedEnv lostMarkerScript) sampleContext
        (freshCheck lostMarkerScript) (sampleCase []) (plainStage expect200) (by decide)
        (by decide)).2.1 _ (by decide) (by decide) (by decide) (by decide) (by decide)
        (by decide)).1,
    ((RunStage_marker_not_found (scriptedEnv silentLogScript) sampleContext
      (freshCheck silentLogScript) (sampleCase []) (plainStage expectFailure) (by decide)
      (by decide)).2.2 (by decide)).1⟩

/-! ### Errors end the run -/

theorem RunStage.finish_sameSettings {χ : Type} (env : Env χ) (rc : TestRunContext) (c : χ)
    (tc : Test) (out : Output) (t0 : Duration) (resp : Option Response)
    (err : Option GoError) :
    sameSettings (RunStage.finish env rc c tc out t0 resp err).1 rc := by
  simp only [RunStage.finish]
  refine sameSettings_trans (b := displayResult _ _ _ _) ⟨rfl, rfl, rfl, rfl, rfl, rfl, rfl⟩ ?_
  refine sameSettings_trans (sameSettings_displayResult _ _ _ _) ?_
  exact ⟨rfl, rfl, rfl, rfl, rfl, rfl, rfl⟩

theorem contextAtFinish_sameSettings {χ : Type} (env : Env χ) (rc : TestRunContext) (c : χ)
    (stage : Stage) : sameSettings (contextAtFinish env rc c stage) rc := by
  unfold contextAtFinish
  split
  · exact sameSettings_trans (sameSettings_log _ _)
      (sameSettings_trans (sameSettings_markAndFlush _ _ _ _)
        (contextAfterSend_sameSettings env rc c stage))
  · exact contextAfterSend_sameSettings env rc c stage

/-- A stage leaves the settings of the run as they were. -/
theorem RunStage_sameSettings {χ : Type} (env : Env χ) (rc : TestRunContext) (c : χ)
    (tc : Test) (stage : Stage) : sameSettings (RunStage env rc c tc stage).1 rc := by
  by_cases hsane : checkTestSanity stage.Input = false
  · by_cases hover : overriddenTestResult env c tc.TestTitle = .Failed
    · rw [RunStage_eq env rc c tc stage hsane hover]
      split
      · exact sameSettings_markAndFlush _ _ _ _
      · split
        · exact sameSettings_trans (sameSettings_log _ _)
            (contextAtConnect_sameSettings env rc c stage)
        · split
          · exact contextAfterSend_sameSettings env rc c stage
          · split
            · exact sameSettings_trans (sameSettings_markAndFlush _ _ _ _)
                (contextAfterSend_sameSettings env rc c stage)
            · exact sameSettings_trans (RunStage.finish_sameSettings _ _ _ _ _ _ _ _)
                (contextAtFinish_sameSettings env rc c stage)
    · have h1 : checkTestSanity (applyInputOverride env.FTWConfig stage.Input).1 = false := by
        rw [checkTestSanity_applyInputOverride]
        exact hsane
      have hrun : RunStage env rc c tc stage =
          (displayResult
            (rc.addResultToStats (overriddenTestResult env c tc.TestTitle) tc.TestTitle 0)
            (overriddenTestResult env c tc.TestTitle) 0 0, none) := by
        unfold RunStage
        simp [h1, hover]
      rw [hrun]
      exact sameSettings_trans (sameSettings_displayResult _ _ 0 0)
        (sameSettings_addResultToStats _ _ _ _)
  · have h1 : checkTestSanity (applyInputOverride env.FTWConfig stage.Input).1 = true := by
      rw [checkTestSanity_applyInputOverride]
      simpa using hsane
    have hrun : RunStage env rc c tc stage = (rc, some errBadTestRequest) := by
      unfold RunStage
      simp [h1]
    rw [hrun]
    exact sameSettings_refl _

theorem runStages_sameSettings {χ : Type} (env : Env χ) (tc : Test) (stages : List Stage) :
    ∀ rc, sameSettings (runStages env tc stages rc).1 rc := by
  induction stages with
  | nil => intro rc; exact sameSettings_refl _
  | cons stage rest ih =>
    intro rc
    have hs := RunStage_sameSettings env rc (env.NewCheck env.FTWConfig) tc stage
    rcases hrun : RunStage env rc (env.NewCheck env.FTWConfig) tc stage with ⟨r, _ | e⟩
    · have hstep : runStages env tc (stage :: rest) rc = runStages env tc rest r := by
        simp [runStages, hrun]
      rw [hrun] at hs
      rw [hstep]
      exact sameSettings_trans (ih r) hs
    · have hstep : runStages env tc (stage :: rest) rc = (r, some e) := by
        simp [runStages, hrun]
      rw [hrun] at hs
      rw [hstep]
      exact hs

/-- A stage reads its test case for the title only. -/
theorem RunStage_title {χ : Type} (env : Env χ) (rc : TestRunContext) (c : χ)
    (tc tc' : Test) (stage : Stage) (h : tc.TestTitle = tc'.TestTitle) :
    RunStage env rc c tc stage = RunStage env rc c tc' stage := by
  unfold RunStage RunStage.send RunStage.endMarker RunStage.finish
  simp only [h]

theorem runStages_title {χ : Type} (env : Env χ) (tc tc' : Test) (stages : List Stage)
    (h : tc.TestTitle = tc'.TestTitle) :
    ∀ rc, runStages env tc stages rc = runStages env tc' stages rc := by
  induction stages with
  | nil => intro rc; rfl
  | cons stage rest ih =>
    intro rc
    simp only [runStages, RunStage_title env rc _ tc tc' stage h, ih]

/-- Once a stage ends with an error, the loop over the stages ends with that error and the
run context the stage left, whatever stages follow. -/
theorem runStages_abort {χ : Type} (env : Env χ) (tc : Test) (stage : Stage)
    (rc rc' : TestRunContext) (err : GoError)
    (hrun : RunStage env rc (env.NewCheck env.FTWConfig) tc stage = (rc', some err))
    (spre spost : List Stage) :
    ∀ rc0, runStages env tc spre rc0 = (rc, none) →
      runStages env tc (spre ++ stage :: spost) rc0 = (rc', some err) := by
  induction spre with
  | nil =>
    intro rc0 h0
    simp only [runStages, Prod.mk.injEq, and_true] at h0
    subst h0
    simp [runStages, hrun]
  | cons s rest ih =>
    intro rc0 h0
    rcases hs : RunStage env rc0 (env.NewCheck env.FTWConfig) tc s with ⟨r, _ | e⟩
    · have e1 : runStages env tc (s :: rest) rc0 = runStages env tc rest r := by
        simp [runStages, hs]
      have e2 : runStages env tc ((s :: rest) ++ stage :: spost) rc0 =
          runStages env tc (rest ++ stage :: spost) r := by
        simp [runStages, hs]
      rw [e1] at h0
      rw [e2]
      exact ih r h0
    · have e1 : runStages env tc (s :: rest) rc0 = (r, some e) := by
        simp [runStages, hs]
      rw [e1] at h0
      simp at h0

theorem sameSettings_skipTestCase (F : FTWTest) (t : Test) (rc : TestRunContext) :
    sameSettings (skipTestCase F t rc) rc := by
  unfold skipTestCase
  simp only
  split
  · exact sameSettings_trans (sameSettings_log _ _) (sameSettings_addResultToStats _ _ _ _)
  · exact sameSettings_addResultToStats _ _ _ _

theorem sameSettings_announceTestCase (changed : Bool) (rc : TestRunContext) :
    sameSettings (announceTestCase changed rc).1 rc := by
  unfold announceTestCase
  simp only
  split <;> split <;> exact ⟨rfl, rfl, rfl, rfl, rfl, rfl, rfl⟩

/-- The loop over the test cases reads the test file for its metadata only. -/
theorem runTestCases_meta {χ : Type} (env : Env χ) (F F' : FTWTest) (h : F.Meta = F'.Meta)
    (cases : List Test) :
    ∀ changed rc, runTestCases env F cases changed rc = runTestCases env F' cases changed rc := by
  induction cases with
  | nil => intro changed rc; rfl
  | cons t rest ih =>
    intro changed rc
    simp only [runTestCases, skipTestCase, h, ih]

/-- Once a stage ends with an error, the loop over the test cases ends with that error and
the run context the stage left, whatever stages and test cases follow. -/
theorem runTestCases_abort {χ : Type} (env : Env χ) (F : FTWTest) (tc : Test) (stage : Stage)
    (rc rc' : TestRunContext) (err : GoError)
    (hrun : RunStage env rc (env.NewCheck env.FTWConfig) tc stage = (rc', some err))
    (spre spost : List Stage) (hstages : tc.Stages = spre ++ stage :: spost)
    (cpre cpost : List Test) :
    ∀ changed rcF,
      needToSkipTest rcF.Include rcF.Exclude tc.TestTitle F.Meta.Enabled = false →
      runTestCases env F (cpre ++ [{ tc with Stages := spre }]) changed rcF = (rc, none) →
      runTestCases env F (cpre ++ tc :: cpost) changed rcF = (rc', some err) := by
  induction cpre with
  | nil =>
    intro changed rcF hskip h
    simp only [List.nil_append] at h ⊢
    rw [runTestCases] at h ⊢
    simp only [hskip, Bool.false_eq_true, if_false] at h ⊢
    rw [runStages_title env { tc with Stages := spre } tc spre rfl] at h
    rcases hr : runStages env tc spre (announceTestCase changed rcF).1 with ⟨r, _ | e⟩
    · rw [hr] at h
      simp only [runTestCases, Prod.mk.injEq, and_true] at h
      subst h
      rw [hstages, runStages_abort env tc stage r rc' err hrun spre spost _ hr]
    · rw [hr] at h
      simp at h
  | cons c0 cs ih =>
    intro changed rcF hskip h
    rw [List.cons_append] at h ⊢
    rw [runTestCases] at h ⊢
    by_cases hc : needToSkipTest rcF.Include rcF.Exclude c0.TestTitle F.Meta.Enabled = true
    · simp only [hc, if_true] at h ⊢
      refine ih _ _ ?_ h
      have hsame := sameSettings_skipTestCase F c0 rcF
      rw [hsame.1, hsame.2.1]
      exact hskip
    · simp only [hc, Bool.false_eq_true, if_false] at h ⊢
      have hAs := sameSettings_announceTestCase changed rcF
      have hrs := runStages_sameSettings env c0 c0.Stages (announceTestCase changed rcF).1
      rcases hr : runStages env c0 c0.Stages (announceTestCase changed rcF).1 with ⟨r, _ | e⟩
      · rw [hr] at h hrs
        refine ih _ r ?_ h
        have hsame := sameSettings_trans hrs hAs
        rw [hsame.1, hsame.2.1]
        exact hskip
      · rw [hr] at h
        simp at h

/-- Once a test file ends with an error, the loop over the test files ends with that error
and the run context the file left, whatever files follow. -/
theorem runTests_abort {χ : Type} (env : Env χ) (F : FTWTest) (rcF rc' : TestRunContext)
    (err : GoError) (hrun : RunTest env rcF F = (rc', some err))
    (tpre tpost : List FTWTest) :
    ∀ rc0, runTests env tpre rc0 = (rcF, none) →
      runTests env (tpre ++ F :: tpost) rc0 = (rc', some err) := by
  induction tpre with
  | nil =>
    intro rc0 h0
    simp only [runTests, Prod.mk.injEq, and_true] at h0
    subst h0
    simp [runTests, hrun]
  | cons t rest ih =>
    intro rc0 h0
    rcases ht : RunTest env rc0 t with ⟨r, _ | e⟩
    · have e1 : runTests env (t :: rest) rc0 = runTests env rest r := by
        simp [runTests, ht]
      have e2 : runTests env ((t :: rest) ++ F :: tpost) rc0 =
          runTests env (rest ++ F :: tpost) r := by
        simp [runTests, ht]
      rw [e1] at h0
      rw [e2]
      exact ih r h0
    · have e1 : runTests env (t :: rest) rc0 = (r, some e) := by
        simp [runTests, ht]
      rw [e1] at h0
      simp at h0

/-- Once a stage ends with an error, `RunTest` returns that error with the run context the
stage left, and so does `Run`, with no summary printed. -/
theorem RunTest_Run_abort {χ : Type} (env : Env χ) (tc : Test) (stage : Stage)
    (rc rc' : TestRunContext) (err : GoError)
    (hrun : RunStage env rc (env.NewCheck env.FTWConfig) tc stage = (rc', some err))
    (fileMeta : Meta) (cpre cpost : List Test) (spre spost : List Stage)
    (rcF : TestRunContext) (hstages : tc.Stages = spre ++ stage :: spost)
    (hskip : needToSkipTest rcF.Include rcF.Exclude tc.TestTitle fileMeta.Enabled = false)
    (hreach : RunTest env rcF
      { Meta := fileMeta, Tests := cpre ++ [{ tc with Stages := spre }] } = (rc, none)) :
    RunTest env rcF { Meta := fileMeta, Tests := cpre ++ tc :: cpost } = (rc', some err) ∧
      ∀ (trace : Trace) (c : Config) (tpre tpost : List FTWTest),
        env.NewFTWLogLines env.FTWConfig.LogFile = none →
        env.NewClient (Run.clientConfig env c).1 (Run.clientConfig env c).2 = none →
        runTests env tpre (Run.context env (trace ++ [.println "** Running go-ftw!"]) c) =
          (rcF, none) →
        Run env trace (tpre ++ { Meta := fileMeta, Tests := cpre ++ tc :: cpost } :: tpost) c =
          (emptyRunContext rc'.trace, some err) := by
  have hfile : RunTest env rcF { Meta := fileMeta, Tests := cpre ++ tc :: cpost } =
      (rc', some err) := by
    unfold RunTest at hreach ⊢
    simp only at hreach ⊢
    rw [runTestCases_meta env
      { Meta := fileMeta, Tests := cpre ++ [{ tc with Stages := spre }] }
      { Meta := fileMeta, Tests := cpre ++ tc :: cpost } rfl] at hreach
    exact runTestCases_abort env _ tc stage rc rc' err hrun spre spost hstages cpre cpost true
      rcF hskip hreach
  refine ⟨hfile, ?_⟩
  intro trace c tpre tpost hlog hclient hbefore
  have hloop := runTests_abort env _ rcF rc' err hfile tpre tpost _ hbefore
  unfold Run
  simp only [hlog, hclient, hloop]

/-- C5: for a stage that passes the sanity check, is not overridden and does not expect an
error, and that reaches its connection attempt: if the connection attempt, or after it the
send of the test request, returns a transport error, `RunStage` returns an error wrapping it
and records no verdict.  When the stage is run by `RunTest`, in a test case that is not
skipped, `RunTest` returns that error with the run context as the stage left it, whatever
stages and test cases follow, and `Run` returns that error, whatever test files follow. -/
theorem RunStage_transport_error_aborts {χ : Type} (env : Env χ)
    (runContext : TestRunContext) (ftwCheck : χ) (testCase : Test) (stage : Stage)
    (e : GoError) (hsane : checkTestSanity stage.Input = false)
    (hover : overriddenTestResult env ftwCheck testCase.TestTitle = .Failed)
    (hexp : stage.Output.ExpectError = false)
    (hstart : notRunningInCloudMode env ftwCheck = true →
      (startMarkerSearch env runContext stage).err = none)
    (hfail : connectError env runContext ftwCheck stage = some e ∨
      (connectError env runContext ftwCheck stage = none ∧
        (sendAnswer env runContext ftwCheck stage).2 = some e)) :
    ∃ rc' err,
      RunStage env runContext ftwCheck testCase stage = (rc', some err) ∧
        (err = .wrap "can't connect to destination %+v: %w" e ∨
          err = .wrap "failed sending request to destination %+v: %w" e) ∧
        verdicts rc'.trace = verdicts runContext.trace ∧ rc'.Stats = runContext.Stats ∧
        (ftwCheck = env.NewCheck env.FTWConfig →
          ∀ (fileMeta : Meta) (cpre cpost : List Test) (spre spost : List Stage)
            (rcF : TestRunContext),
            testCase.Stages = spre ++ stage :: spost →
            needToSkipTest rcF.Include rcF.Exclude testCase.TestTitle fileMeta.Enabled =
              false →
            RunTest env rcF
              { Meta := fileMeta, Tests := cpre ++ [{ testCase with Stages := spre }] } =
              (runContext, none) →
            RunTest env rcF { Meta := fileMeta, Tests := cpre ++ testCase :: cpost } =
                (rc', some err) ∧
              ∀ (trace : Trace) (c : Config) (tpre tpost : List FTWTest),
                env.NewFTWLogLines env.FTWConfig.LogFile = none →
                env.NewClient (Run.clientConfig env c).1 (Run.clientConfig env c).2 = none →
                runTests env tpre
                    (Run.context env (trace ++ [.println "** Running go-ftw!"]) c) =
                  (rcF, none) →
                Run env trace
                    (tpre ++ { Meta := fileMeta, Tests := cpre ++ testCase :: cpost } :: tpost)
                    c =
                  (emptyRunContext rc'.trace, some err)) := by
  have hnostart : ¬(notRunningInCloudMode env ftwCheck = true ∧
      stage.Output.ExpectError = false ∧
      (startMarkerSearch env runContext stage).err.isSome = true) := by
    rintro ⟨hc, _, hs⟩
    rw [hstart hc] at hs
    simp at hs
  rcases hfail with hconn | ⟨hconn, hsend⟩
  · have hrun : RunStage env runContext ftwCheck testCase stage =
        ((contextAtConnect env runContext ftwCheck stage).log
          (.newConnection (stageDest env.FTWConfig stage)),
          some (.wrap "can't connect to destination %+v: %w" e)) := by
      rw [RunStage_eq env runContext ftwCheck testCase stage hsane hover, if_neg hnostart]
      simp [hexp, hconn]
    refine ⟨_, _, hrun, Or.inl rfl, ?_, ?_, ?_⟩
    · simp [TestRunContext.log, verdicts_append, contextAtConnect_verdicts]
      simp [verdicts]
    · simp [TestRunContext.log, contextAtConnect_Stats]
    · intro hcheck fileMeta cpre cpost spre spost rcF hstages hskip hreach
      subst hcheck
      exact RunTest_Run_abort env testCase stage runContext _ _ hrun fileMeta cpre cpost spre
        spost rcF hstages hskip hreach
  · have hrun : RunStage env runContext ftwCheck testCase stage =
        (contextAfterSend env runContext ftwCheck stage,
          some (.wrap "failed sending request to destination %+v: %w" e)) := by
      rw [RunStage_eq env runContext ftwCheck testCase stage hsane hover, if_neg hnostart]
      simp [hexp, hconn, hsend]
    refine ⟨_, _, hrun, Or.inr rfl, contextAfterSend_verdicts _ _ _ _,
      contextAfterSend_Stats _ _ _ _, ?_⟩
    intro hcheck fileMeta cpre cpost spre spost rcF hstages hskip hreach
    subst hcheck
    exact RunTest_Run_abort env testCase stage runContext _ _ hrun fileMeta cpre cpost spre
      spost rcF hstages hskip hreach

/-- An instance of C5: the destination of the first stage of a run cannot be connected to;
`Run` returns the error of that connection attempt, with two test files still to come. -/
theorem RunStage_transport_error_aborts_witness :
    (Run (scriptedEnv unreachableScript) [] [sampleFile, sampleFile, sampleFile]
        sampleConfig).2 =
      some (.wrap "can't connect to destination %+v: %w"
        (.msg "dial tcp: connection refused")) := by
  obtain ⟨rc', err, hrun, _, _, _, hrest⟩ :=
    RunStage_transport_error_aborts (scriptedEnv unreachableScript)
      (announcedContext unreachableScript) (freshCheck unreachableScript) twoStageCase
      (plainStage expect200) (.msg "dial tcp: connection refused") (by decide) (by decide)
      (by decide) (fun _ => by decide) (Or.inl (by decide))
  have hstage : (RunStage (scriptedEnv unreachableScript) (announcedContext unreachableScript)
      (freshCheck unreachableScript) twoStageCase (plainStage expect200)).2 =
      some (.wrap "can't connect to destination %+v: %w"
        (.msg "dial tcp: connection refused")) := by decide
  rw [hrun] at hstage
  have herr : err = .wrap "can't connect to destination %+v: %w"
      (.msg "dial tcp: connection refused") := by simpa using hstage
  have hrun2 := (hrest rfl sampleMeta []
    [{ TestTitle := "920100-2", Stages := [plainStage expect200] }] [] [plainStage expect200]
    (startedContext unreachableScript) rfl (by decide) rfl).2 [] sampleConfig []
    [sampleFile, sampleFile] rfl rfl rfl
  have hsnd := congrArg Prod.snd hrun2
  rw [herr] at hsnd
  exact hsnd

/-! ### The skip rule, continued -/

/-- C14: a disabled test that is not explicitly included, the include pattern being unset
or not matching the title, is skipped, whatever the exclude pattern. -/
theorem needToSkipTest_disabled (incl exclude : Option Regexp) (title : String)
    (hnot : incl = none ∨ ∃ re, incl = some re ∧ re.MatchString title = false) :
    needToSkipTest incl exclude title false = true := by
  rcases hnot with h | ⟨re, h, _⟩ <;> simp [needToSkipTest, h]

/-- Two instances of C14: no include pattern, and an include pattern for another rule. -/
theorem needToSkipTest_disabled_witness :
    needToSkipTest none (some matchAll) "920100-1" false = true ∧
      needToSkipTest (some rule911) none "920100-1" false = true :=
  ⟨needToSkipTest_disabled none (some matchAll) "920100-1" (Or.inl rfl),
    needToSkipTest_disabled (some rule911) none "920100-1"
      (Or.inr ⟨rule911, rfl, by decide⟩)⟩

/-- C15: with no include pattern, a title that the exclude pattern matches is skipped,
whatever the enabled flag. -/
theorem needToSkipTest_excluded (re : Regexp) (title : String) (enabled : Bool)
    (hmatch : re.MatchString title = true) :
    needToSkipTest none (some re) title enabled = true := by
  cases enabled <;> simp [needToSkipTest, hmatch]

/-- An instance of C15: the title 920100-1, enabled, under an exclude pattern that matches
every title. -/
theorem needToSkipTest_excluded_witness :
    needToSkipTest none (some matchAll) "920100-1" true = true :=
  needToSkipTest_excluded matchAll "920100-1" true rfl

/-- C16: a title that a set include pattern does not match is skipped, whatever the
enabled flag and the exclude pattern. -/
theorem needToSkipTest_not_included (re : Regexp) (exclude : Option Regexp) (title : String)
    (enabled : Bool) (hmiss : re.MatchString title = false) :
    needToSkipTest (some re) exclude title enabled = true := by
  cases enabled <;> cases exclude <;> simp [needToSkipTest, hmiss]

/-- An instance of C16: the title 920100-1, enabled and not excluded, under an include
pattern for the rules 911. -/
theorem needToSkipTest_not_included_witness :
    needToSkipTest (some rule911) none "920100-1" true = true :=
  needToSkipTest_not_included rule911 none "920100-1" true (by decide)

/-! ### The verdict after a transport error -/

/-- C11: after a transport error `checkResult` returns Success when `AssertExpectError`
holds of the error and Failed otherwise; the response, the history the log assertions read
and the other assertions play no part, so the verdict is the same for every response and
every log. -/
theorem checkResult_with_error {χ : Type} (env : Env χ) (tr : Trace) (c : χ)
    (response : Option Response) (e : GoError) :
    checkResult env tr c response (some e) =
        (if env.AssertExpectError c e = true then TestResult.Success else TestResult.Failed) ∧
      ∀ (tr' : Trace) (response' : Option Response),
        checkResult env tr' c response' (some e) = checkResult env tr c response (some e) := by
  have h : ∀ (t : Trace) (r : Option Response), checkResult env t c r (some e) =
      (if env.AssertExpectError c e = true then TestResult.Success else TestResult.Failed) := by
    intro t r
    cases hx : env.AssertExpectError c e <;> simp [checkResult, hx]
  exact ⟨h tr response, fun tr' response' => by rw [h, h]⟩

/-! ### A probe that fails -/

theorem logReads_append (a b : Trace) : logReads (a ++ b) = logReads a + logReads b := by
  simp [logReads, List.countP_append]

theorem logReads_probeRounds (dest : Destination) (req : Request) (stageID : String)
    (readLimit : Int) (j : Nat) :
    logReads (probeRounds dest req stageID readLimit j) = j := by
  induction j with
  | zero => rfl
  | succ j ih =>
    rw [probeRounds, logReads_append, ih]
    have h1 : logReads (probeRound dest req stageID readLimit) = 1 := rfl
    rw [h1]
    omega

/-- C20: let the rounds before round j + 1 of a marker search have found nothing, round
j + 1 being within the retry limit.  If the probe of round j + 1 fails to connect with the
error e, `markAndFlush` ends there with a nil marker and the connection error wrapping e:
the history ends with the failed connection, so the probe of that round is not sent and
the log is not read.  If the probe connects and fails to be sent with the error e,
`markAndFlush` ends there with a nil marker and the send error wrapping e: the history
ends with the failed send, so the log is not read.  In both cases no further round is
run, however many retries remain. -/
theorem markAndFlush_probe_error {χ : Type} (env : Env χ) (runContext : TestRunContext)
    (dest : Destination) (stageID : String) (j : Nat) (e : GoError)
    (hj : (j : Int) < runContext.MaxMarkerRetries)
    (hbefore : ∀ l, l < j →
      roundAnswer env runContext.trace dest (markerRequest env.FTWConfig stageID) stageID
        runContext.MaxMarkerLogLines l = some none) :
    (env.NewOrReusedConnection
          (runContext.trace ++ probeRounds dest (markerRequest env.FTWConfig stageID) stageID
            runContext.MaxMarkerLogLines j) dest = some e →
        markAndFlush env runContext dest stageID =
            { ctx := { runContext with
                trace := runContext.trace ++
                  probeRounds dest (markerRequest env.FTWConfig stageID) stageID
                    runContext.MaxMarkerLogLines j ++ [.newOrReusedConnection dest] },
              marker := none,
              err := some (.wrap "ftw/run: can't connect to destination %+v: %w" e) } ∧
          requestsSent (markAndFlush env runContext dest stageID).ctx.trace =
            requestsSent runContext.trace ++
              List.replicate j (markerRequest env.FTWConfig stageID) ∧
          logReads (markAndFlush env runContext dest stageID).ctx.trace =
            logReads runContext.trace + j) ∧
      (env.NewOrReusedConnection
          (runContext.trace ++ probeRounds dest (markerRequest env.FTWConfig stageID) stageID
            runContext.MaxMarkerLogLines j) dest = none →
        (env.Do
          (runContext.trace ++ probeRounds dest (markerRequest env.FTWConfig stageID) stageID
            runContext.MaxMarkerLogLines j ++ [.newOrReusedConnection dest])
          (markerRequest env.FTWConfig stageID)).2 = some e →
        markAndFlush env runContext dest stageID =
            { ctx := { runContext with
                trace := runContext.trace ++
                  probeRounds dest (markerRequest env.FTWConfig stageID) stageID
                    runContext.MaxMarkerLogLines j ++
                  [.newOrReusedConnection dest,
                    .doRequest (markerRequest env.FTWConfig stageID)] },
              marker := none,
              err := some (.wrap "ftw/run: failed sending request to %+v: %w" e) } ∧
          requestsSent (markAndFlush env runContext dest stageID).ctx.trace =
            requestsSent runContext.trace ++
              List.replicate (j + 1) (markerRequest env.FTWConfig stageID) ∧
          logReads (markAndFlush env runContext dest stageID).ctx.trace =
            logReads runContext.trace + j) := by
  obtain ⟨i, hi⟩ : ∃ i, runContext.MaxMarkerRetries.toNat = (i + 1) + j :=
    ⟨runContext.MaxMarkerRetries.toNat - (j + 1), by omega⟩
  have hskip := markAndFlushLoop_rounds_nothing env dest stageID
    (markerRequest env.FTWConfig stageID) j (i + 1) runContext hbefore
  constructor
  · intro hconn
    have hres : markAndFlush env runContext dest stageID =
        { ctx := { runContext with
            trace := runContext.trace ++
              probeRounds dest (markerRequest env.FTWConfig stageID) stageID
                runContext.MaxMarkerLogLines j ++ [.newOrReusedConnection dest] },
          marker := none,
          err := some (.wrap "ftw/run: can't connect to destination %+v: %w" e) } := by
      simp only [markAndFlush, hi, hskip]
      simp [markAndFlushLoop, TestRunContext.log, hconn]
    rw [hres]
    refine ⟨rfl, ?_, ?_⟩
    · simp [requestsSent_append, requestsSent_probeRounds]
      simp [requestsSent]
    · simp only [logReads_append, logReads_probeRounds]
      rfl
  · intro hconn hsend
    have hres : markAndFlush env runContext dest stageID =
        { ctx := { runContext with
            trace := runContext.trace ++
              probeRounds dest (markerRequest env.FTWConfig stageID) stageID
                runContext.MaxMarkerLogLines j ++
              [.newOrReusedConnection dest, .doRequest (markerRequest env.FTWConfig stageID)] },
          marker := none,
          err := some (.wrap "ftw/run: failed sending request to %+v: %w" e) } := by
      have hsend' := hsend
      rw [List.append_assoc] at hsend'
      simp only [markAndFlush, hi, hskip]
      simp [markAndFlushLoop, TestRunContext.log, hconn, hsend']
    rw [hres]
    refine ⟨rfl, ?_, ?_⟩
    · simp only [requestsSent_append, requestsSent_probeRounds, List.replicate_succ',
        List.append_assoc]
      simp [requestsSent]
    · simp only [logReads_append, logReads_probeRounds]
      rfl

/-- Two instances of C20, each in the first round of a search with three retries: a probe
that cannot connect, after which no request has been sent; a probe that connects and is
cut off while being sent, after which the log has not been read. -/
theorem markAndFlush_probe_error_witness :
    requestsSent
        (markAndFlush (scriptedEnv deadProbeConnectionScript) sampleContext sampleDest
          "stage-1").ctx.trace = requestsSent sampleContext.trace ++ [] ∧
      (markAndFlush (scriptedEnv deadProbeScript) sampleContext sampleDest "stage-1").err =
        some (.wrap "ftw/run: failed sending request to %+v: %w"
          (.msg "connection reset by peer")) ∧
      logReads
          (markAndFlush (scriptedEnv deadProbeScript) sampleContext sampleDest
            "stage-1").ctx.trace = logReads sampleContext.trace + 0 :=
  have h1 := (markAndFlush_probe_error (scriptedEnv deadProbeConnectionScript) sampleContext
    sampleDest "stage-1" 0 (.msg "dial tcp: connection refused") (by decide)
    (fun l hl => absurd hl (Nat.not_lt_zero l))).1 (by decide)
  have h2 := (markAndFlush_probe_error (scriptedEnv deadProbeScript) sampleContext sampleDest
    "stage-1" 0 (.msg "connection reset by peer") (by decide)
    (fun l hl => absurd hl (Nat.not_lt_zero l))).2 (by decide) (by decide)
  ⟨h1.2.1, congrArg MarkResult.err h2.1, h2.2.2⟩

/-! ### The marker limits of a run -/

theorem runTestCases_sameSettings {χ : Type} (env : Env χ) (F : FTWTest) (cases : List Test) :
    ∀ changed rc, sameSettings (runTestCases env F cases changed rc).1 rc := by
  induction cases with
  | nil => intro changed rc; exact sameSettings_refl _
  | cons t rest ih =>
    intro changed rc
    by_cases hskip : needToSkipTest rc.Include rc.Exclude t.TestTitle F.Meta.Enabled = true
    · have hstep : runTestCases env F (t :: rest) changed rc =
          runTestCases env F rest changed (skipTestCase F t rc) := by
        simp [runTestCases, hskip]
      rw [hstep]
      exact sameSettings_trans (ih _ _) (sameSettings_skipTestCase F t rc)
    · have hA := sameSettings_announceTestCase changed rc
      have hS := runStages_sameSettings env t t.Stages (announceTestCase changed rc).1
      rcases hr : runStages env t t.Stages (announceTestCase changed rc).1 with ⟨r, _ | e⟩
      · have hstep : runTestCases env F (t :: rest) changed rc =
            runTestCases env F rest (announceTestCase changed rc).2 r := by
          simp [runTestCases, hskip, hr]
        rw [hr] at hS
        rw [hstep]
        exact sameSettings_trans (ih _ r) (sameSettings_trans hS hA)
      · have hstep : runTestCases env F (t :: rest) changed rc = (r, some e) := by
          simp [runTestCases, hskip, hr]
        rw [hr] at hS
        rw [hstep]
        exact sameSettings_trans hS hA

theorem runTests_sameSettings {χ : Type} (env : Env χ) (tests : List FTWTest) :
    ∀ rc, sameSettings (runTests env tests rc).1 rc := by
  induction tests with
  | nil => intro rc; exact sameSettings_refl _
  | cons t rest ih =>
    intro rc
    have hT : sameSettings (RunTest env rc t).1 rc := runTestCases_sameSettings env t t.Tests true rc
    rcases hr : RunTest env rc t with ⟨r, _ | e⟩
    · have hstep : runTests env (t :: rest) rc = runTests env rest r := by
        simp [runTests, hr]
      rw [hr] at hT
      rw [hstep]
      exact sameSettings_trans (ih r) hT
    · have hstep : runTests env (t :: rest) rc = (r, some e) := by
        simp [runTests, hr]
      rw [hr] at hT
      rw [hstep]
      exact hT

/-- C18: the run context `Run` builds has the marker retry limit 20 when the configured
value is 0 and the marker line limit 500 when the configured value is 0, and the
configured value itself whenever that is not 0, a negative one included; the tests are run
from this context, and the run context a successful `Run` returns still has these
limits. -/
theorem Run_marker_limits {χ : Type} (env : Env χ) (trace : Trace) (tests : List FTWTest)
    (c : Config) :
    (Run.context env trace c).MaxMarkerRetries =
        (if c.MaxMarkerRetries = 0 then 20 else c.MaxMarkerRetries) ∧
      (Run.context env trace c).MaxMarkerLogLines =
        (if c.MaxMarkerLogLines = 0 then 500 else c.MaxMarkerLogLines) ∧
      (env.NewFTWLogLines env.FTWConfig.LogFile = none →
        env.NewClient (Run.clientConfig env c).1 (Run.clientConfig env c).2 = none →
        (Run env trace tests c).2 =
          (runTests env tests
            (Run.context env (trace ++ [.println "** Running go-ftw!"]) c)).2) ∧
      ∀ rc, Run env trace tests c = (rc, none) →
        rc.MaxMarkerRetries = (if c.MaxMarkerRetries = 0 then 20 else c.MaxMarkerRetries) ∧
          rc.MaxMarkerLogLines =
            (if c.MaxMarkerLogLines = 0 then 500 else c.MaxMarkerLogLines) := by
  refine ⟨rfl, rfl, ?_, ?_⟩
  · intro hlog hclient
    unfold Run
    simp only [hlog, hclient]
    rcases hr : runTests env tests
      (Run.context env (trace ++ [.println "** Running go-ftw!"]) c) with ⟨r, _ | e⟩ <;>
      simp only [hr]
  · intro rc hrun
    unfold Run at hrun
    rcases hlog : env.NewFTWLogLines env.FTWConfig.LogFile with _ | e
    · rcases hclient : env.NewClient (Run.clientConfig env c).1 (Run.clientConfig env c).2
        with _ | e
      · simp only [hlog, hclient] at hrun
        have hS := runTests_sameSettings env tests
          (Run.context env (trace ++ [.println "** Running go-ftw!"]) c)
        rcases hr : runTests env tests
          (Run.context env (trace ++ [.println "** Running go-ftw!"]) c) with ⟨r, _ | e⟩
        · rw [hr] at hrun hS
          simp only [Prod.mk.injEq, and_true] at hrun
          subst hrun
          exact ⟨hS.2.2.2.2.1, hS.2.2.2.2.2.1⟩
        · rw [hr] at hrun
          simp at hrun
      · simp [hlog, hclient] at hrun
    · simp [hlog] at hrun

/-- Two instances of C18: a run that is configured with 0 for both limits returns a run
context with the limits 20 and 500; one configured with -1 retries keeps -1. -/
theorem Run_marker_limits_witness :
    (Run (scriptedEnv quietScript) [] [] zeroLimitsConfig).1.MaxMarkerRetries = 20 ∧
      (Run (scriptedEnv quietScript) [] [] zeroLimitsConfig).1.MaxMarkerLogLines = 500 ∧
      (Run (scriptedEnv quietScript) [] []
        { zeroLimitsConfig with MaxMarkerRetries := -1 }).1.MaxMarkerRetries = -1 :=
  have h := (Run_marker_limits (scriptedEnv quietScript) [] [] zeroLimitsConfig).2.2.2 _ rfl
  have h' := (Run_marker_limits (scriptedEnv quietScript) [] []
    { zeroLimitsConfig with MaxMarkerRetries := -1 }).2.2.2 _ rfl
  ⟨h.1, h.2, h'.1⟩

/-! ### One verdict for each stage -/

theorem markerCalls_append (a b : Trace) :
    markerCalls (a ++ b) = markerCalls a ++ markerCalls b := by
  simp [markerCalls]

theorem scored_addResultToStats (stats : RunStats) (r : TestResult) :
    (stats.addResultToStats r).scored = stats.scored + 1 := by
  cases r <;> simp [RunStats.addResultToStats, RunStats.scored] <;> omega

/-- What the resolution of the verdict adds to the history: no call of the marker protocol
and no request. -/
theorem RunStage.finish_post {χ : Type} (env : Env χ) (rc : TestRunContext) (c : χ)
    (tc : Test) (out : Output) (t0 : Duration) (resp : Option Response)
    (err : Option GoError) :
    ∃ post, (RunStage.finish env rc c tc out t0 resp err).1.trace = rc.trace ++ post ∧
      markerCalls post = [] ∧ requestsSent post = [] := by
  simp only [RunStage.finish, TestRunContext.log, TestRunContext.addResultToStats]
  generalize checkResult env (rc.trace ++ [.setExpectTestOutput out])
    (env.SetExpectTestOutput c out) resp err = v
  cases v <;> simp only [displayResult, TestRunContext.log] <;> (try split) <;>
    simp only [List.append_assoc] <;> exact ⟨_, rfl, rfl, rfl⟩

theorem RunStage.finish_scored {χ : Type} (env : Env χ) (rc : TestRunContext) (c : χ)
    (tc : Test) (out : Output) (t0 : Duration) (resp : Option Response)
    (err : Option GoError) :
    (RunStage.finish env rc c tc out t0 resp err).1.Stats.scored = rc.Stats.scored + 1 := by
  simp only [RunStage.finish, TestRunContext.log, TestRunContext.addResultToStats]
  simp only [displayResult_Stats]
  exact scored_addResultToStats _ _

/-- A stage either ends with an error, the verdicts and the statistics as they were, or
ends without one, a single verdict added. -/
theorem RunStage_outcome {χ : Type} (env : Env χ) (rc : TestRunContext) (c : χ) (tc : Test)
    (stage : Stage) :
    (∃ e, (RunStage env rc c tc stage).2 = some e ∧
        verdicts (RunStage env rc c tc stage).1.trace = verdicts rc.trace ∧
        (RunStage env rc c tc stage).1.Stats = rc.Stats) ∨
      ((RunStage env rc c tc stage).2 = none ∧
        (∃ v, verdicts (RunStage env rc c tc stage).1.trace = verdicts rc.trace ++ [v]) ∧
        (RunStage env rc c tc stage).1.Stats.scored = rc.Stats.scored + 1) := by
  by_cases hsane : checkTestSanity stage.Input = false
  · by_cases hover : overriddenTestResult env c tc.TestTitle = .Failed
    · rw [RunStage_eq env rc c tc stage hsane hover]
      split
      · rename_i h
        obtain ⟨e, he⟩ := Option.isSome_iff_exists.mp h.2.2
        exact Or.inl ⟨_, by rw [he]; rfl, markAndFlush_verdicts _ _ _ _,
          markAndFlush_Stats _ _ _ _⟩
      · split
        · rename_i h
          obtain ⟨e, he⟩ := Option.isSome_iff_exists.mp h.2
          refine Or.inl ⟨_, by rw [he]; rfl, ?_, ?_⟩
          · simp [TestRunContext.log, verdicts_append, contextAtConnect_verdicts]
            simp [verdicts]
          · simp [TestRunContext.log, contextAtConnect_Stats]
        · split
          · rename_i h
            obtain ⟨e, he⟩ := Option.isSome_iff_exists.mp h.2
            exact Or.inl ⟨_, by rw [he]; rfl, contextAfterSend_verdicts _ _ _ _,
              contextAfterSend_Stats _ _ _ _⟩
          · split
            · rename_i h
              obtain ⟨e, he⟩ := Option.isSome_iff_exists.mp h.2.2
              refine Or.inl ⟨_, by rw [he]; rfl, ?_, ?_⟩
              · show verdicts (markAndFlush env _ _ _).ctx.trace = _
                rw [markAndFlush_verdicts, contextAfterSend_verdicts]
              · show (markAndFlush env _ _ _).ctx.Stats = _
                rw [markAndFlush_Stats, contextAfterSend_Stats]
            · have hv := RunStage.finish_verdicts env (contextAtFinish env rc c stage)
                (checkAtFinish env rc c stage) tc stage.Output (env.Now rc.trace)
                (sendAnswer env rc c stage).1 (sendAnswer env rc c stage).2
              rw [contextAtFinish_verdicts] at hv
              refine Or.inr ⟨rfl, ⟨_, hv⟩, ?_⟩
              · rw [RunStage.finish_scored]
                have hS : (contextAtFinish env rc c stage).Stats = rc.Stats := by
                  unfold contextAtFinish
                  split
                  · show (markAndFlush env _ _ _).ctx.Stats = _
                    rw [markAndFlush_Stats, contextAfterSend_Stats]
                  · exact contextAfterSend_Stats _ _ _ _
                rw [hS]
    · have h1 : checkTestSanity (applyInputOverride env.FTWConfig stage.Input).1 = false := by
        rw [checkTestSanity_applyInputOverride]
        exact hsane
      have hrun : RunStage env rc c tc stage =
          (displayResult
            (rc.addResultToStats (overriddenTestResult env c tc.TestTitle) tc.TestTitle 0)
            (overriddenTestResult env c tc.TestTitle) 0 0, none) := by
        unfold RunStage
        simp [h1, hover]
      rw [hrun]
      refine Or.inr ⟨rfl, ⟨overriddenTestResult env c tc.TestTitle, ?_⟩, ?_⟩
      · simp [displayResult_verdicts, TestRunContext.addResultToStats, verdicts_append]
        simp [verdicts]
      · simp only [displayResult_Stats, TestRunContext.addResultToStats]
        exact scored_addResultToStats _ _
  · have h1 : checkTestSanity (applyInputOverride env.FTWConfig stage.Input).1 = true := by
      rw [checkTestSanity_applyInputOverride]
      simpa using hsane
    have hrun : RunStage env rc c tc stage = (rc, some errBadTestRequest) := by
      unfold RunStage
      simp [h1]
    rw [hrun]
    exact Or.inl ⟨_, rfl, rfl, rfl⟩

/-- C13: for every call of `RunStage`, if it returns nil then `addResultToStats` was called
exactly once in it, and the statistics hold one verdict more; if it returns an error then
`addResultToStats` was not called, and the statistics are as they were.  So no path of
`RunStage` scores a stage twice. -/
theorem RunStage_scores_once {χ : Type} (env : Env χ) (runContext : TestRunContext)
    (ftwCheck : χ) (testCase : Test) (stage : Stage) :
    ((RunStage env runContext ftwCheck testCase stage).2 = none →
        (∃ v, verdicts (RunStage env runContext ftwCheck testCase stage).1.trace =
          verdicts runContext.trace ++ [v]) ∧
        (RunStage env runContext ftwCheck testCase stage).1.Stats.scored =
          runContext.Stats.scored + 1) ∧
      ((RunStage env runContext ftwCheck testCase stage).2 ≠ none →
        verdicts (RunStage env runContext ftwCheck testCase stage).1.trace =
          verdicts runContext.trace ∧
        (RunStage env runContext ftwCheck testCase stage).1.Stats = runContext.Stats) := by
  rcases RunStage_outcome env runContext ftwCheck testCase stage with
    ⟨e, he, hv, hs⟩ | ⟨hnone, hv, hs⟩
  · exact ⟨fun h => by rw [he] at h; simp at h, fun _ => ⟨hv, hs⟩⟩
  · exact ⟨fun _ => ⟨hv, hs⟩, fun h => absurd hnone h⟩

/-- Two instances of C13: a stage that is answered with the expected status has one
verdict; a stage whose destination cannot be connected to has none. -/
theorem RunStage_scores_once_witness :
    (RunStage (scriptedEnv quietScript) sampleContext (freshCheck quietScript)
        (sampleCase []) (plainStage expect200)).1.Stats.scored =
        sampleContext.Stats.scored + 1 ∧
      verdicts (RunStage (scriptedEnv unreachableScript) sampleContext
        (freshCheck unreachableScript) (sampleCase []) (plainStage expect200)).1.trace =
        verdicts sampleContext.trace :=
  ⟨((RunStage_scores_once (scriptedEnv quietScript) sampleContext (freshCheck quietScript)
      (sampleCase []) (plainStage expect200)).1 (by decide)).2,
    ((RunStage_scores_once (scriptedEnv unreachableScript) sampleContext
      (freshCheck unreachableScript) (sampleCase []) (plainStage expect200)).2
      (by decide)).1⟩

/-! ### The marker protocol and cloud mode -/

theorem displayResult_markerCalls (rc : TestRunContext) (r : TestResult) (a b : Duration) :
    markerCalls (displayResult rc r a b).trace = markerCalls rc.trace := by
  cases r <;> simp [displayResult, TestRunContext.log] <;>
    first
      | rfl
      | (split <;> simp [markerCalls_append, markerCalls, Event.isMarkerCall])
      | simp [markerCalls_append, markerCalls, Event.isMarkerCall]

theorem displayResult_requestsSent (rc : TestRunContext) (r : TestResult) (a b : Duration) :
    requestsSent (displayResult rc r a b).trace = requestsSent rc.trace := by
  cases r <;> simp [displayResult, TestRunContext.log] <;>
    first
      | rfl
      | (split <;> simp [requestsSent_append, requestsSent])
      | simp [requestsSent_append, requestsSent]

/-- In cloud mode a stage makes no call of the marker protocol and sends at most its test
request. -/
theorem RunStage_cloud {χ : Type} (env : Env χ) (rc : TestRunContext) (c : χ) (tc : Test)
    (stage : Stage) (hcloud : env.CloudMode c = true) :
    markerCalls (RunStage env rc c tc stage).1.trace = markerCalls rc.trace ∧
      (requestsSent (RunStage env rc c tc stage).1.trace = requestsSent rc.trace ∨
        requestsSent (RunStage env rc c tc stage).1.trace =
          requestsSent rc.trace ++ [stageRequest env stage]) := by
  have hn : notRunningInCloudMode env c = false := by simp [notRunningInCloudMode, hcloud]
  have hAC : contextAtConnect env rc c stage = rc := by simp [contextAtConnect, hn]
  have hCS : checkAtSend env rc c stage = c := by simp [checkAtSend, hn]
  have hAS : (contextAfterSend env rc c stage).trace =
      rc.trace ++ [.newConnection (stageDest env.FTWConfig stage), .startTrackingTime,
        .doRequest (stageRequest env stage), .stopTrackingTime] := by
    simp [contextAfterSend, hAC, TestRunContext.log]
  have hAF : contextAtFinish env rc c stage = contextAfterSend env rc c stage := by
    simp [contextAtFinish, hCS, hn]
  by_cases hsane : checkTestSanity stage.Input = false
  · by_cases hover : overriddenTestResult env c tc.TestTitle = .Failed
    · rw [RunStage_eq env rc c tc stage hsane hover]
      split
      · rename_i h
        rw [hn] at h
        simp at h
      · split
        · rw [hAC]
          refine ⟨?_, Or.inl ?_⟩
          · simp [TestRunContext.log, markerCalls_append]
            simp [markerCalls, Event.isMarkerCall]
          · simp [TestRunContext.log, requestsSent_append]
            simp [requestsSent]
        · split
          · rw [hAS]
            refine ⟨?_, Or.inr ?_⟩
            · simp [markerCalls_append]
              simp [markerCalls, Event.isMarkerCall]
            · simp [requestsSent_append]
              simp [requestsSent]
          · split
            · rename_i h
              rw [hCS, hn] at h
              simp at h
            · obtain ⟨post, hpost, hm, hr⟩ := RunStage.finish_post env
                (contextAtFinish env rc c stage) (checkAtFinish env rc c stage) tc
                stage.Output (env.Now rc.trace) (sendAnswer env rc c stage).1
                (sendAnswer env rc c stage).2
              have hm4 : markerCalls [.newConnection (stageDest env.FTWConfig stage),
                  .startTrackingTime, .doRequest (stageRequest env stage),
                  .stopTrackingTime] = [] := rfl
              have hr4 : requestsSent [.newConnection (stageDest env.FTWConfig stage),
                  .startTrackingTime, .doRequest (stageRequest env stage),
                  .stopTrackingTime] = [stageRequest env stage] := rfl
              rw [hpost, hAF, hAS]
              refine ⟨?_, Or.inr ?_⟩
              · rw [markerCalls_append, markerCalls_append, hm, hm4]
                simp
              · rw [requestsSent_append, requestsSent_append, hr, hr4]
                simp
    · have h1 : checkTestSanity (applyInputOverride env.FTWConfig stage.Input).1 = false := by
        rw [checkTestSanity_applyInputOverride]
        exact hsane
      have hrun : RunStage env rc c tc stage =
          (displayResult
            (rc.addResultToStats (overriddenTestResult env c tc.TestTitle) tc.TestTitle 0)
            (overriddenTestResult env c tc.TestTitle) 0 0, none) := by
        unfold RunStage
        simp [h1, hover]
      rw [hrun]
      refine ⟨?_, Or.inl ?_⟩
      · simp [displayResult_markerCalls, TestRunContext.addResultToStats, markerCalls_append]
        simp [markerCalls, Event.isMarkerCall]
      · simp [displayResult_requestsSent, TestRunContext.addResultToStats,
          requestsSent_append]
        simp [requestsSent]
  · have h1 : checkTestSanity (applyInputOverride env.FTWConfig stage.Input).1 = true := by
      rw [checkTestSanity_applyInputOverride]
      simpa using hsane
    have hrun : RunStage env rc c tc stage = (rc, some errBadTestRequest) := by
      unfold RunStage
      simp [h1]
    rw [hrun]
    exact ⟨rfl, Or.inl rfl⟩

/-- A stage that passes the sanity check, is not overridden and returns nil has gone
through all its steps. -/
theorem RunStage_completed_eq {χ : Type} (env : Env χ) (rc : TestRunContext) (c : χ)
    (tc : Test) (stage : Stage) (hsane : checkTestSanity stage.Input = false)
    (hover : overriddenTestResult env c tc.TestTitle = .Failed)
    (hdone : (RunStage env rc c tc stage).2 = none) :
    RunStage env rc c tc stage =
      RunStage.finish env (contextAtFinish env rc c stage) (checkAtFinish env rc c stage) tc
        stage.Output (env.Now rc.trace) (sendAnswer env rc c stage).1
        (sendAnswer env rc c stage).2 := by
  rw [RunStage_eq env rc c tc stage hsane hover] at hdone ⊢
  split at hdone
  · rename_i h
    obtain ⟨e, he⟩ := Option.isSome_iff_exists.mp h.2.2
    simp [he] at hdone
  · split at hdone
    · rename_i h
      obtain ⟨e, he⟩ := Option.isSome_iff_exists.mp h.2
      simp [he] at hdone
    · split at hdone
      · rename_i h
        obtain ⟨e, he⟩ := Option.isSome_iff_exists.mp h.2
        simp [he] at hdone
      · split at hdone
        · rename_i h
          obtain ⟨e, he⟩ := Option.isSome_iff_exists.mp h.2.2
          simp [he] at hdone
        · rename_i h1 h2 h3 h4
          rw [if_neg h1, if_neg h2, if_neg h3, if_neg h4]

theorem markersSet_append (a b : Trace) :
    markersSet (a ++ b) = markersSet a ++ markersSet b := by
  simp [markersSet]

theorem markersSet_of_no_markerCalls (l : Trace) (h : markerCalls l = []) :
    markersSet l = [] := by
  unfold markerCalls at h
  unfold markersSet
  rw [List.filter_eq_nil_iff] at h ⊢
  intro ev hev hset
  apply h ev hev
  cases ev <;> simp_all [Event.isMarkerSet, Event.isMarkerCall]

theorem markersSet_of_probe_calls (dest : Destination) (req : Request) (stageID : String)
    (readLimit : Int) (l : Trace)
    (h : ∀ ev ∈ l, ev ∈ probeRound dest req stageID readLimit) : markersSet l = [] := by
  unfold markersSet
  rw [List.filter_eq_nil_iff]
  intro ev hev hset
  have hmem := h ev hev
  simp only [probeRound, List.mem_cons, List.mem_singleton, List.not_mem_nil, or_false] at hmem
  rcases hmem with rfl | rfl | rfl <;> simp [Event.isMarkerSet] at hset

theorem markAndFlush_markersSet {χ : Type} (env : Env χ) (rc : TestRunContext)
    (dest : Destination) (stageID : String) :
    markersSet (markAndFlush env rc dest stageID).ctx.trace = markersSet rc.trace := by
  obtain ⟨new, hnew, hev⟩ := markAndFlush_events env rc dest stageID
  rw [hnew, markersSet_append, markersSet_of_probe_calls _ _ _ _ new hev]
  simp

/-- C12, as stated, fails outside cloud mode: a stage whose title is marked Ignore and whose
input passes the sanity check completes, `RunStage` returning nil with the verdict Ignored,
and no marker search has run: no probe connected, no log was read, no marker was set and
no request was sent. -/
theorem RunStage_overridden_no_marker_search :
    notRunningInCloudMode (scriptedEnv ignoreScript) (freshCheck ignoreScript) = true ∧
      (RunStage (scriptedEnv ignoreScript) sampleContext (freshCheck ignoreScript)
        (sampleCase []) (plainStage expect200)).2 = none ∧
      verdicts (RunStage (scriptedEnv ignoreScript) sampleContext (freshCheck ignoreScript)
        (sampleCase []) (plainStage expect200)).1.trace = [.Ignored] ∧
      markerCalls (RunStage (scriptedEnv ignoreScript) sampleContext (freshCheck ignoreScript)
        (sampleCase []) (plainStage expect200)).1.trace = [] ∧
      requestsSent (RunStage (scriptedEnv ignoreScript) sampleContext
        (freshCheck ignoreScript) (sampleCase []) (plainStage expect200)).1.trace = [] := by
  decide

/-- C12, amended: in cloud mode `RunStage` makes no call of the marker protocol, for every
stage: no probe connects, the log is not read for a marker, no marker is set, and the only
request sent, if any, is the test request.  Outside cloud mode, for a stage that passes the
sanity check, is not overridden and returns nil, the history is: one marker search and the
start marker set, the connection and the test request, one marker search and the end marker
set, and then calls that belong neither to the marker protocol nor send a request; the
markers set in the stage are the start marker and the end marker, once each. -/
theorem RunStage_marker_protocol {χ : Type} (env : Env χ) (runContext : TestRunContext)
    (ftwCheck : χ) (testCase : Test) (stage : Stage) :
    (env.CloudMode ftwCheck = true →
        markerCalls (RunStage env runContext ftwCheck testCase stage).1.trace =
            markerCalls runContext.trace ∧
          (requestsSent (RunStage env runContext ftwCheck testCase stage).1.trace =
              requestsSent runContext.trace ∨
            requestsSent (RunStage env runContext ftwCheck testCase stage).1.trace =
              requestsSent runContext.trace ++ [stageRequest env stage])) ∧
      (checkTestSanity stage.Input = false →
        overriddenTestResult env ftwCheck testCase.TestTitle = .Failed →
        notRunningInCloudMode env ftwCheck = true →
        notRunningInCloudMode env (checkAtSend env runContext ftwCheck stage) = true →
        (RunStage env runContext ftwCheck testCase stage).2 = none →
        startMarkerSearch env runContext stage =
            markAndFlush env runContext (stageDest env.FTWConfig stage)
              (env.NewString runContext.trace) ∧
          (contextAfterSend env runContext ftwCheck stage).trace =
            (startMarkerSearch env runContext stage).ctx.trace ++
              [.setStartMarker (startMarkerSearch env runContext stage).marker,
                .newConnection (stageDest env.FTWConfig stage), .startTrackingTime,
                .doRequest (stageRequest env stage), .stopTrackingTime] ∧
          endMarkerSearch env runContext ftwCheck stage =
            markAndFlush env (contextAfterSend env runContext ftwCheck stage)
              (stageDest env.FTWConfig stage) (env.NewString runContext.trace) ∧
          (∃ post,
            (RunStage env runContext ftwCheck testCase stage).1.trace =
                (endMarkerSearch env runContext ftwCheck stage).ctx.trace ++
                  .setEndMarker (endMarkerSearch env runContext ftwCheck stage).marker ::
                    post ∧
              markerCalls post = [] ∧ requestsSent post = []) ∧
          markersSet (RunStage env runContext ftwCheck testCase stage).1.trace =
            markersSet runContext.trace ++
              [.setStartMarker (startMarkerSearch env runContext stage).marker,
                .setEndMarker (endMarkerSearch env runContext ftwCheck stage).marker]) := by
  refine ⟨RunStage_cloud env runContext ftwCheck testCase stage, ?_⟩
  intro hsane hover hc1 hc2 hdone
  have hsent : (contextAfterSend env runContext ftwCheck stage).trace =
      (startMarkerSearch env runContext stage).ctx.trace ++
        [.setStartMarker (startMarkerSearch env runContext stage).marker,
          .newConnection (stageDest env.FTWConfig stage), .startTrackingTime,
          .doRequest (stageRequest env stage), .stopTrackingTime] := by
    simp [contextAfterSend, contextAtConnect, hc1, TestRunContext.log]
  obtain ⟨post, hpost, hm, hr⟩ := RunStage.finish_post env
    (contextAtFinish env runContext ftwCheck stage)
    (checkAtFinish env runContext ftwCheck stage) testCase stage.Output
    (env.Now runContext.trace) (sendAnswer env runContext ftwCheck stage).1
    (sendAnswer env runContext ftwCheck stage).2
  have htrace : (RunStage env runContext ftwCheck testCase stage).1.trace =
      (endMarkerSearch env runContext ftwCheck stage).ctx.trace ++
        .setEndMarker (endMarkerSearch env runContext ftwCheck stage).marker :: post := by
    rw [RunStage_completed_eq env runContext ftwCheck testCase stage hsane hover hdone, hpost]
    simp [contextAtFinish, hc2, TestRunContext.log]
  refine ⟨rfl, hsent, rfl, ⟨post, htrace, hm, hr⟩, ?_⟩
  have hmid : markersSet
      [.setStartMarker (startMarkerSearch env runContext stage).marker,
        .newConnection (stageDest env.FTWConfig stage), .startTrackingTime,
        .doRequest (stageRequest env stage), .stopTrackingTime] =
      [.setStartMarker (startMarkerSearch env runContext stage).marker] := rfl
  have hend : markersSet
      (.setEndMarker (endMarkerSearch env runContext ftwCheck stage).marker :: post) =
      [.setEndMarker (endMarkerSearch env runContext ftwCheck stage).marker] := by
    rw [show (Event.setEndMarker (endMarkerSearch env runContext ftwCheck stage).marker ::
        post) = [.setEndMarker (endMarkerSearch env runContext ftwCheck stage).marker] ++ post
      from rfl, markersSet_append, markersSet_of_no_markerCalls post hm]
    rfl
  have h2 : markersSet (endMarkerSearch env runContext ftwCheck stage).ctx.trace =
      markersSet (contextAfterSend env runContext ftwCheck stage).trace :=
    markAndFlush_markersSet env _ _ _
  have h1 : markersSet (startMarkerSearch env runContext stage).ctx.trace =
      markersSet runContext.trace := markAndFlush_markersSet env _ _ _
  rw [htrace, markersSet_append, hend, h2, hsent, markersSet_append, hmid, h1]
  simp

/-- Two instances of C12 as amended: a stage in cloud mode, which makes no call of the
marker protocol; the same stage outside cloud mode, in which the start marker and the end
marker are set once each. -/
theorem RunStage_marker_protocol_witness :
    markerCalls (RunStage (scriptedEnv cloudScript) sampleContext (freshCheck cloudScript)
        (sampleCase []) (plainStage expect200)).1.trace = markerCalls sampleContext.trace ∧
      markersSet (RunStage (scriptedEnv quietScript) sampleContext (freshCheck quietScript)
          (sampleCase []) (plainStage expect200)).1.trace =
        markersSet sampleContext.trace ++
          [.setStartMarker (startMarkerSearch (scriptedEnv quietScript) sampleContext
              (plainStage expect200)).marker,
            .setEndMarker (endMarkerSearch (scriptedEnv quietScript) sampleContext
              (freshCheck quietScript) (plainStage expect200)).marker] :=
  ⟨((RunStage_marker_protocol (scriptedEnv cloudScript) sampleContext
      (freshCheck cloudScript) (sampleCase []) (plainStage expect200)).1 (by decide)).1,
    ((RunStage_marker_protocol (scriptedEnv quietScript) sampleContext
      (freshCheck quietScript) (sampleCase []) (plainStage expect200)).2 (by decide)
      (by decide) (by decide) (by decide) (by decide)).2.2.2.2⟩

/-! ### The outcome of the run command -/

/-- C17: when `RunE` gets past its flag checks, loads the tests, compiles the patterns and
`Run` returns no error, it returns an error exactly when the total failed count of the
statistics `Run` hands back is greater than zero, and nil otherwise, with a count of zero
in particular. -/
theorem RunE_failed_count {χ : Type} (env : Env χ) (cfg : CmdConfig) (flags : RunFlags)
    (trace : Trace) (includeRE excludeRE : Option Regexp) (currentRun : TestRunContext)
    (hid : flags.id = "") (hone : flags.exclude = "" ∨ flags.incl = "")
    (hload : (env.GetTestsFromFiles trace (flags.dir ++ "/**/*.yaml")).2 = none)
    (hinclude : RunE.pattern env flags.incl = some includeRE)
    (hexclude : RunE.pattern env flags.exclude = some excludeRE)
    (hrun : Run env
        (trace ++ [.getTestsFromFiles (flags.dir ++ "/**/*.yaml")] ++
          [.println "** Starting tests!"])
        (env.GetTestsFromFiles trace (flags.dir ++ "/**/*.yaml")).1
        (RunE.runnerConfig cfg flags includeRE excludeRE) = (currentRun, none)) :
    (RunE env cfg flags trace).result =
        .returned (if env.TotalFailed currentRun.Stats > 0 then some (.msg "failed %d tests")
          else none) ∧
      ((∃ err, (RunE env cfg flags trace).result = .returned (some err)) ↔
        env.TotalFailed currentRun.Stats > 0) ∧
      (env.TotalFailed currentRun.Stats = 0 →
        (RunE env cfg flags trace).result = .returned none) := by
  have hnot : ¬(flags.exclude ≠ "" ∧ flags.incl ≠ "") := by
    rintro ⟨h1, h2⟩
    rcases hone with h | h
    · exact h1 h
    · exact h2 h
  have hres : (RunE env cfg flags trace).result =
      .returned (if env.TotalFailed currentRun.Stats > 0 then some (.msg "failed %d tests")
        else none) := by
    unfold RunE.pattern at hinclude hexclude
    unfold RunE.runnerConfig at hrun
    unfold RunE
    simp only [hid, ne_eq, not_true_eq_false, if_false, hnot, hload, hinclude, hexclude]
    by_cases hr : flags.maxMarkerRetries = 0 <;> by_cases hl : flags.maxMarkerLogLines = 0 <;>
      simp only [hr, hl, ne_eq, not_true_eq_false, not_false_eq_true, if_true, if_false]
        at hrun ⊢ <;>
      rw [hrun] <;> simp only [] <;> split <;> rfl
  refine ⟨hres, ?_, ?_⟩
  · rw [hres]
    by_cases hpos : env.TotalFailed currentRun.Stats > 0
    · simp [hpos]
    · simp [hpos]
  · intro hzero
    rw [hres, hzero]
    simp

/-- Two instances of C17: a run over no test file returns nil; a run over a file whose
stages are all answered with a 403 against an expected 200 returns an error. -/
theorem RunE_failed_count_witness :
    (RunE (scriptedEnv quietScript) emptyCmdConfig plainFlags []).result = .returned none ∧
      (RunE (scriptedEnv failingScript) emptyCmdConfig plainFlags []).result =
        .returned (some (.msg "failed %d tests")) :=
  ⟨(RunE_failed_count (scriptedEnv quietScript) emptyCmdConfig plainFlags [] none none
      (ranContext quietScript) rfl (Or.inl rfl) rfl rfl rfl
      (Prod.ext rfl (by decide))).2.2 (by decide),
    (RunE_failed_count (scriptedEnv failingScript) emptyCmdConfig plainFlags [] none none
      (ranContext failingScript) rfl (Or.inl rfl) rfl rfl rfl
      (Prod.ext rfl (by decide))).1.trans (by decide)⟩

/-! ### The input override -/

theorem Header.Get_Set (h : Header) (key value : String) :
    Header.Get (Header.Set h key value) key = value := by
  have hnone : List.find? (fun kv : String × String => canonicalKey kv.1 == canonicalKey key)
      ((h.getD []).filter (fun kv => canonicalKey kv.1 != canonicalKey key)) = none := by
    rw [List.find?_eq_none]
    intro x hx
    have := (List.mem_filter.mp hx).2
    simpa using this
  simp [Header.Get, Header.Set, List.find?_append, hnone]

/-- C19: `applyInputOverride` returns a nil error.  The port, the address and the protocol
of the input are replaced by their override when that is set and are unchanged otherwise;
the fields that have no override are unchanged.  The headers change only under an address
override, and then only when the input reads no Host header or an empty one: the Host
header is then set to the overriding address, and a Host header that is there is left as it
is.  With no override set the input is unchanged. -/
theorem applyInputOverride_frame (cfg : FTWConfiguration) (input : Input) :
    (applyInputOverride cfg input).2 = none ∧
      (applyInputOverride cfg input).1.Port =
        (if cfg.TestOverrideInput.Port.isSome then cfg.TestOverrideInput.Port
         else input.Port) ∧
      (applyInputOverride cfg input).1.DestAddr =
        (if cfg.TestOverrideInput.DestAddr.isSome then cfg.TestOverrideInput.DestAddr
         else input.DestAddr) ∧
      (applyInputOverride cfg input).1.Protocol =
        (if cfg.TestOverrideInput.Protocol.isSome then cfg.TestOverrideInput.Protocol
         else input.Protocol) ∧
      ((applyInputOverride cfg input).1.URI = input.URI ∧
        (applyInputOverride cfg input).1.Version = input.Version ∧
        (applyInputOverride cfg input).1.Method = input.Method ∧
        (applyInputOverride cfg input).1.Data = input.Data ∧
        (applyInputOverride cfg input).1.EncodedRequest = input.EncodedRequest ∧
        (applyInputOverride cfg input).1.RAWRequest = input.RAWRequest ∧
        (applyInputOverride cfg input).1.StopMagic = input.StopMagic) ∧
      (cfg.TestOverrideInput.DestAddr = none →
        (applyInputOverride cfg input).1.Headers = input.Headers) ∧
      (Header.Get input.Headers "Host" ≠ "" →
        (applyInputOverride cfg input).1.Headers = input.Headers) ∧
      (∀ addr, cfg.TestOverrideInput.DestAddr = some addr →
        Header.Get input.Headers "Host" = "" →
        (applyInputOverride cfg input).1.Headers = Header.Set input.Headers "Host" addr ∧
          Header.Get (applyInputOverride cfg input).1.Headers "Host" = addr) ∧
      (cfg.TestOverrideInput = { Port := none, DestAddr := none, Protocol := none } →
        (applyInputOverride cfg input).1 = input) := by
  obtain ⟨_, _, _, ⟨port, addr, proto⟩⟩ := cfg
  have hempty : Header.Get (some []) "Host" = "" := rfl
  have hnil : Header.Get none "Host" = "" := rfl
  have hset : ∀ a, Header.Set (some []) "Host" a = Header.Set none "Host" a := fun _ => rfl
  rcases hh : input.Headers with _ | kvs
  · cases port <;> cases addr <;> cases proto <;>
      simp [applyInputOverride, hh, hempty, hnil, hset, Header.Get_Set]
  · by_cases hg : Header.Get (some kvs) "Host" = ""
    · cases port <;> cases addr <;> cases proto <;>
        simp [applyInputOverride, hh, hg, Header.Get_Set]
    · cases port <;> cases addr <;> cases proto <;>
        simp [applyInputOverride, hh, hg]

/-- Two instances of C19, under an override of the address and the port: an input with a
Host header keeps its headers; an input with no header gets the Host header of the
overriding address. -/
theorem applyInputOverride_frame_witness :
    (applyInputOverride overridingConfig plainInput).1.Headers = plainInput.Headers ∧
      Header.Get (applyInputOverride overridingConfig bareInput).1.Headers "Host" =
        "waf.example" :=
  ⟨(applyInputOverride_frame overridingConfig plainInput).2.2.2.2.2.2.1 (by decide),
    ((applyInputOverride_frame overridingConfig bareInput).2.2.2.2.2.2.2.1 "waf.example" rfl
      (by decide)).2⟩

end GoFtw
